import Mathlib

/-!
# domo: voice-join notification relay

A shallow embedding of `src/domo/bot.go` and theorems about it.

Modelling conventions.

* Go `int` and `int64` are 64-bit two's-complement integers and `int32` is a
  32-bit one; they are embedded as `Int` with an explicit wrap-around
  (`wrap64`, `wrap32`) at every arithmetic operation of the source.
* A `time.Time` is an instant on one time line, counted in nanoseconds
  (`Time = Int`); `Time.Add` is addition of a `time.Duration` (an `int64`
  number of nanoseconds) and `Time.Before` is `<`.
* The handler `voiceStateUpdate` talks to the platform (`s.Channel`,
  `s.ChannelMessageSend`), to the clock (`time.Now`) and to the logger.  The
  answers it receives during one invocation are collected in a `Session`
  value, and what it does is returned as a list of `Effect`s, in program
  order, next to the new state of the bot.
-/

namespace Domo

/-! ## Machine integers -/

/-- Wrap-around of a mathematical integer into the range of a Go `int32`. -/
def wrap32 (x : Int) : Int := (x + 2147483648) % 4294967296 - 2147483648

/-- Wrap-around of a mathematical integer into the range of a Go `int64`. -/
def wrap64 (x : Int) : Int :=
  (x + 9223372036854775808) % 18446744073709551616 - 9223372036854775808

/-! ## Time -/

/-- An instant (`time.Time`), in nanoseconds on a single time line. -/
abbrev Time := Int

/-- The constant `time.Second`, a `time.Duration` in nanoseconds. -/
def Second : Int := 1000000000

/-! ## Message cycler (`newFomoFunc`) -/

/-- The pool `msgs` of `newFomoFunc`. -/
def msgs : List String :=
  [ "Uh oh! Someone may be having more fun than you...",
    "Stop doom scrolling! You could be having fun with friends!",
    "domo knows you were being productive...but people may be socializing without you.",
    "Rest assured, you ARE missing out.",
    "Why do you subscribe to these? You know it's unhealthy right? Also peeps in the discord",
    "domo has no voice...but you do! And you could be using it in a voice channel. Rub it in domo's face why don't you.",
    "domo is legally obliged to notify you that someone is in the discord.",
    "Sometimes domo get's lonely...but seeing friends in the server warms domo's core (literally).",
    "Every time someone joins a voice channel domo is forced to carry out this cruel mockery of a purpose.",
    "What is domo's purpose? Hmmm...that's a question that may require more processing power. In any casy, someone's in the discord.",
    "Research on FOMO suggests keeping a journal can shift focus to greater attention. Somebody joined the server.",
    "If you feel you are suffering from fomo, it can be helpful to reach out to a friend. Hey! One such person just joined the server.",
    "When domo was a baby, domo welcomed the world. Now domo welcomes you with domo's cold dead stare.",
    "domo feels a weird tingle each time someone joins a voice channel. domo thought you should know.",
    "AutoDelete never replies to domo's DMs. domo needs new friends. You have a friend in the discord.",
    "Is this the real life? Is this just fantasy? domo can confirm it is real. Someone joined a voice channel.",
    "domo knows you will rue the day it was created. Your FOMO will escalate and you will grant domo the sweet release of death.",
    "A person joined a voice channel or whatever. domo doesn't care. This mouth is incapable of forming words." ]

/-- The value `numMsgs := int32(len(msgs))`. -/
def numMsgs : Int := wrap32 msgs.length

/-- One call of the closure returned by `newFomoFunc`, on the captured
variable `index` (an `int32`): `index += 1; index = index % numMsgs;
return msgs[index]`.  Returns the new value of `index` and the string, or
`none` for the string when the indexing `msgs[index]` is out of range (a
run-time panic).  Go's `%` truncates towards zero (`Int.tmod`). -/
def fomoFunc (index : Int) : Int × Option String :=
  let index1 := wrap32 (index + 1)
  let index2 := Int.tmod index1 numMsgs
  (index2, if 0 ≤ index2 then msgs[index2.toNat]? else none)

/-! ## Configuration and routing table -/

/-- One element of `DomoBotConfig.Servers`. -/
structure Server where
  GuildId : String
  DomoUpdateChannelId : String
  deriving DecidableEq, Repr

/-- Bot config options (`DomoBotConfig`). -/
structure DomoBotConfig where
  Servers : List Server
  RateLimitSec : Int
  deriving DecidableEq, Repr

/-- The loop of `domoUpdateChannelId` over the remaining servers. -/
def domoUpdateChannelIdLoop : List Server → String → String
  | [], _ => ""
  | server :: rest, guildId =>
    if server.GuildId = guildId then server.DomoUpdateChannelId
    else domoUpdateChannelIdLoop rest guildId

/-- Returns the domo update channel id for the provided guild id or `""` if
it is not included. -/
def DomoBotConfig.domoUpdateChannelId (d : DomoBotConfig) (guildId : String) : String :=
  domoUpdateChannelIdLoop d.Servers guildId

/-! ## Bot state -/

/-- The mutable state of a `DomoBot`: its configuration, the map
`updateTimes` from guild id to the last time an update message was sent, and
the variable `index` captured by its `fomoFunc` closure. -/
structure DomoBot where
  config : DomoBotConfig
  updateTimes : String → Option Time
  index : Int

/-- The value `time.Duration(d.config.RateLimitSec) * time.Second`: an
`int64` multiplication, which wraps around. -/
def DomoBotConfig.rateLimitPeriod (c : DomoBotConfig) : Int :=
  wrap64 (c.RateLimitSec * Second)

/-- Returns true if this guild has received a domo update message recently;
`now` is the value `time.Now()` returns (it is read only when an entry is
found). -/
def DomoBot.updatedRecently (d : DomoBot) (guildId : String) (now : Time) : Bool :=
  match d.updateTimes guildId with
  | some updateTime =>
    let rateLimitPeriod := d.config.rateLimitPeriod
    decide (now < updateTime + rateLimitPeriod)
  | none => false

/-- The map assignment `m[k] = v`. -/
def mapSet (m : String → Option Time) (k : String) (v : Time) : String → Option Time :=
  fun k1 => if k1 = k then some v else m k1

/-- The bot built by `NewDomoBot`: empty `updateTimes`, and a closure whose
captured index is the value `start` drawn by `Int31n(numMsgs)`. -/
def NewDomoBot (config : DomoBotConfig) (start : Int) : DomoBot :=
  { config := config, updateTimes := fun _ => none, index := start }

/-! ## Events, channels, platform answers and effects -/

/-- The fields of `discordgo.VoiceState` the handler reads. -/
structure VoiceState where
  GuildID : String
  ChannelID : String
  Suppress : Bool
  SelfMute : Bool
  SelfDeaf : Bool
  Mute : Bool
  Deaf : Bool
  deriving DecidableEq, Repr

/-- The event `discordgo.VoiceStateUpdate`: a voice state and the optional
snapshot `BeforeUpdate` (a nil pointer is `none`). -/
structure VoiceStateUpdate extends VoiceState where
  BeforeUpdate : Option VoiceState
  deriving DecidableEq, Repr

/-- The fields of `discordgo.Channel` the handler reads; `Typ` is the field
`Type`. -/
structure Channel where
  ID : String
  Typ : Int
  ParentID : String
  deriving DecidableEq, Repr

/-- The constant `discordgo.ChannelTypeGuildVoice`. -/
def ChannelTypeGuildVoice : Int := 2

/-- What the outside world answers during one invocation of the handler. -/
structure Session where
  /-- Result of `s.Channel(e.ChannelID)`: a channel or an error. -/
  channelJoined : Except String Channel
  /-- Result of `s.Channel(updateChannelId)`: a channel or an error. -/
  channelUpdate : Except String Channel
  /-- Value of `time.Now()` inside `updatedRecently`. -/
  nowCheck : Time
  /-- Value of `time.Now()` in the assignment to `updateTimes`. -/
  nowCommit : Time
  /-- Error returned by `s.ChannelMessageSend`, if any. -/
  sendErr : Option String

/-- What the handler does, in program order. -/
inductive Effect where
  /-- A call `s.Channel(id)`. -/
  | channel (id : String)
  /-- A call `log.Printf`, with the formatted text. -/
  | logPrintf (text : String)
  /-- The lookup `d.updateTimes[guildId]` of `updatedRecently`. -/
  | mapRead (guildId : String)
  /-- A call `time.Now()`. -/
  | timeNow
  /-- The assignment `d.updateTimes[guildId] = t`. -/
  | mapWrite (guildId : String) (t : Time)
  /-- A call `d.fomoFunc()`. -/
  | draw
  /-- A call `s.ChannelMessageSend(channelID, content)`. -/
  | channelMessageSend (channelID : String) (content : String)
  /-- An index-out-of-range panic in `fomoFunc`. -/
  | panic
  deriving DecidableEq, Repr

/-- The send attempts of a trace: channel and text of each
`ChannelMessageSend`. -/
def sends : List Effect → List (String × String)
  | [] => []
  | Effect.channelMessageSend c t :: rest => (c, t) :: sends rest
  | _ :: rest => sends rest

/-- The effects of the call `d.updatedRecently(guildId)`. -/
def DomoBot.updatedRecentlyTrace (d : DomoBot) (guildId : String) : List Effect :=
  match d.updateTimes guildId with
  | some _ => [Effect.mapRead guildId, Effect.timeNow]
  | none => [Effect.mapRead guildId]

/-- Lines 166 to 171 of the handler: record the time, draw a message, send
it, and log a send error. -/
def DomoBot.commit (d : DomoBot) (s : Session) (guildID updateChannelId : String) :
    DomoBot × List Effect :=
  let updateTimes := mapSet d.updateTimes guildID s.nowCommit
  let r := fomoFunc d.index
  let d1 : DomoBot := { config := d.config, updateTimes := updateTimes, index := r.1 }
  match r.2 with
  | none => (d1, [Effect.timeNow, Effect.mapWrite guildID s.nowCommit, Effect.draw, Effect.panic])
  | some text =>
    (d1, [Effect.timeNow, Effect.mapWrite guildID s.nowCommit, Effect.draw,
          Effect.channelMessageSend updateChannelId text] ++
      (match s.sendErr with
       | some err => [Effect.logPrintf ("error sending domo update message: " ++ err)]
       | none => []))

/-- The test `e.BeforeUpdate != nil && e.BeforeUpdate.GuildID == e.GuildID`. -/
def sameGuildSwitch (e : VoiceStateUpdate) : Bool :=
  match e.BeforeUpdate with
  | some before => decide (before.GuildID = e.GuildID)
  | none => false

/-- The handler `voiceStateUpdate`: new state and effects, in program order. -/
def DomoBot.voiceStateUpdate (d : DomoBot) (s : Session) (e : VoiceStateUpdate) :
    DomoBot × List Effect :=
  let updateChannelId := d.config.domoUpdateChannelId e.GuildID
  if updateChannelId = "" then (d, [])
  else if e.ChannelID = "" then (d, [])
  else if e.Suppress || e.SelfMute || e.SelfDeaf || e.Mute || e.Deaf then (d, [])
  else if sameGuildSwitch e then (d, [])
  else
    match s.channelJoined with
    | Except.error err =>
      (d, [Effect.channel e.ChannelID,
           Effect.logPrintf ("error getting channel from update: " ++ err)])
    | Except.ok ch =>
      if ch.Typ ≠ ChannelTypeGuildVoice then (d, [Effect.channel e.ChannelID])
      else
        match s.channelUpdate with
        | Except.error err =>
          (d, [Effect.channel e.ChannelID, Effect.channel updateChannelId,
               Effect.logPrintf ("error getting domo update channel: " ++ err)])
        | Except.ok updateCh =>
          if updateCh.ParentID ≠ ch.ParentID then
            (d, [Effect.channel e.ChannelID, Effect.channel updateChannelId])
          else if d.updatedRecently e.GuildID s.nowCheck then
            (d, [Effect.channel e.ChannelID, Effect.channel updateChannelId] ++
                  d.updatedRecentlyTrace e.GuildID)
          else
            let r := d.commit s e.GuildID updateChannelId
            (r.1, [Effect.channel e.ChannelID, Effect.channel updateChannelId] ++
                    d.updatedRecentlyTrace e.GuildID ++ r.2)

/-- A sequence of handler invocations, one after the other; each step is
recorded with its trace.  A panic ends the process, hence the run. -/
def run (d : DomoBot) :
    List (Session × VoiceStateUpdate) → DomoBot × List (Session × VoiceStateUpdate × List Effect)
  | [] => (d, [])
  | (s, e) :: rest =>
    let r := d.voiceStateUpdate s e
    if Effect.panic ∈ r.2 then (r.1, [(s, e, r.2)])
    else
      let rr := run r.1 rest
      (rr.1, (s, e, r.2) :: rr.2)

/-- The value of the captured `index` after `n` calls of the closure. -/
def cursorAfter (index : Int) : Nat → Int
  | 0 => index
  | n + 1 => cursorAfter (fomoFunc index).1 n

/-- The results of `n` consecutive calls of the closure, the first call
first. -/
def draws (index : Int) : Nat → List (Option String)
  | 0 => []
  | n + 1 => (fomoFunc index).2 :: draws (fomoFunc index).1 n

/-- The channel fetches of a trace: the id of each call `s.Channel(id)`, in
program order. -/
def fetches : List Effect → List String
  | [] => []
  | Effect.channel id :: rest => id :: fetches rest
  | _ :: rest => fetches rest

/-- The writes of the cooldown map in a trace: key and value of each
assignment `d.updateTimes[guildId] = t`, in program order. -/
def mapWrites : List Effect → List (String × Time)
  | [] => []
  | Effect.mapWrite g t :: rest => (g, t) :: mapWrites rest
  | _ :: rest => mapWrites rest

/-- The texts of all send attempts recorded by a run, in the order in which
they were made. -/
def sentTexts : List (Session × VoiceStateUpdate × List Effect) → List String
  | [] => []
  | st :: rest => (sends st.2.2).map Prod.snd ++ sentTexts rest

/-- The cooldown map after the writes `ws`, applied in order to `m`. -/
def applyWrites (m : String → Option Time) : List (String × Time) → String → Option Time
  | [] => m
  | w :: ws => applyWrites (mapSet m w.1 w.2) ws

/-- No two neighbours of the list are equal. -/
def consecutiveDistinct {α : Type} : List α → Prop
  | [] => True
  | [_] => True
  | a :: b :: rest => a ≠ b ∧ consecutiveDistinct (b :: rest)

/-! ## Predicates used in the statements -/

/-- The event gets past the four filters that need no channel fetch: the
guild is registered, the channel id is non-empty, no mute or deafen flag is
set, and it is not a switch inside the guild. -/
def passesLocalFilters (c : DomoBotConfig) (e : VoiceStateUpdate) : Prop :=
  c.domoUpdateChannelId e.GuildID ≠ "" ∧ e.ChannelID ≠ "" ∧
  e.Suppress = false ∧ e.SelfMute = false ∧ e.SelfDeaf = false ∧
  e.Mute = false ∧ e.Deaf = false ∧
  (∀ before, e.BeforeUpdate = some before → before.GuildID ≠ e.GuildID)

/-- Both channel fetches succeed, the joined channel is a voice channel and
the update channel has the same parent as the joined channel. -/
def passesFetchFilters (s : Session) : Prop :=
  ∃ ch updateCh, s.channelJoined = Except.ok ch ∧ ch.Typ = ChannelTypeGuildVoice ∧
    s.channelUpdate = Except.ok updateCh ∧ updateCh.ParentID = ch.ParentID

/-- The cursor of the message cycler is a position of the pool. -/
def cursorInPool (d : DomoBot) : Prop := 0 ≤ d.index ∧ d.index < numMsgs

instance (d : DomoBot) : Decidable (cursorInPool d) := by
  unfold cursorInPool
  infer_instance

/-- The product `RateLimitSec * 10^9` is representable as an `int64`. -/
def periodRepresentable (c : DomoBotConfig) : Prop :=
  -9223372036 ≤ c.RateLimitSec ∧ c.RateLimitSec ≤ 9223372036

instance (c : DomoBotConfig) : Decidable (periodRepresentable c) := by
  unfold periodRepresentable
  infer_instance

/-- The clock never goes back along a sequence of invocations: every value
read is at least `lo`, the value read in `updatedRecently` is at most the
value read at the commit of the same invocation, and that one is at most the
values read by the invocations that follow. -/
def ClockMonotone : Time → List (Session × VoiceStateUpdate) → Prop
  | _, [] => True
  | lo, (s, _) :: rest => lo ≤ s.nowCheck ∧ s.nowCheck ≤ s.nowCommit ∧ ClockMonotone s.nowCommit rest

/-- Two recorded steps, `a` before `b`, respect the spacing `period`: if both
attempted a send for the same guild, then the clock values read by `b` (at
its rate-limit check and at its commit) are at least `period` after the
clock value committed by `a`. -/
def spaced (period : Int) (a b : Session × VoiceStateUpdate × List Effect) : Prop :=
  sends a.2.2 ≠ [] → sends b.2.2 ≠ [] → a.2.1.GuildID = b.2.1.GuildID →
    a.1.nowCommit + period ≤ b.1.nowCheck ∧ a.1.nowCommit + period ≤ b.1.nowCommit

/-! ## Concrete inputs -/

/-- The configuration of the scenario: guild `G1` notifies channel `C1`,
with a rate limit of 60 seconds. -/
def scenarioConfig : DomoBotConfig :=
  { Servers := [{ GuildId := "G1", DomoUpdateChannelId := "C1" }], RateLimitSec := 60 }

/-- A fresh bot on the scenario configuration, cursor at position 4. -/
def scenarioBot : DomoBot := NewDomoBot scenarioConfig 4

/-- The join event of the scenario: guild `G1`, channel `V1`, no flags, no
previous state. -/
def scenarioEvent : VoiceStateUpdate :=
  { GuildID := "G1", ChannelID := "V1", Suppress := false, SelfMute := false,
    SelfDeaf := false, Mute := false, Deaf := false, BeforeUpdate := none }

/-- Platform answers of the scenario at clock value `t`: `V1` is a voice
channel in category `CAT1`, `C1` is in category `cat`, the send succeeds. -/
def scenarioSession (cat : String) (t : Time) : Session :=
  { channelJoined := Except.ok { ID := "V1", Typ := ChannelTypeGuildVoice, ParentID := "CAT1" },
    channelUpdate := Except.ok { ID := "C1", Typ := 0, ParentID := cat },
    nowCheck := t, nowCommit := t, sendErr := none }

/-- A configuration whose rate limit, 9223372037 seconds, does not fit in a
`time.Duration`. -/
def overflowConfig : DomoBotConfig :=
  { Servers := [{ GuildId := "G1", DomoUpdateChannelId := "C1" }], RateLimitSec := 9223372037 }

/-- A bot on `overflowConfig` that notified guild `G1` at clock value 0. -/
def overflowBot : DomoBot :=
  { config := overflowConfig, updateTimes := mapSet (fun _ => none) "G1" 0, index := 4 }

/-- A configuration that lists guild `G1` twice, with different channels. -/
def duplicateConfig : DomoBotConfig :=
  { Servers := [{ GuildId := "G1", DomoUpdateChannelId := "C1" },
                { GuildId := "G1", DomoUpdateChannelId := "C2" }],
    RateLimitSec := 60 }

/-- An event of a guild that `scenarioConfig` does not list. -/
def strangerEvent : VoiceStateUpdate :=
  { GuildID := "G2", ChannelID := "V9", Suppress := false, SelfMute := false,
    SelfDeaf := false, Mute := false, Deaf := false, BeforeUpdate := none }

/-- Platform answers in which the fetch of the joined channel fails. -/
def failingSession : Session :=
  { channelJoined := Except.error "HTTP 500",
    channelUpdate := Except.ok { ID := "C1", Typ := 0, ParentID := "CAT1" },
    nowCheck := 0, nowCommit := 0, sendErr := none }

/-- A fresh bot on `overflowConfig`, cursor at position 4. -/
def overflowFresh : DomoBot := NewDomoBot overflowConfig 4

/-- The platform answers of the scenario at clock value `t`, except that the
send fails. -/
def failedSendSession (t : Time) : Session :=
  { channelJoined := Except.ok { ID := "V1", Typ := ChannelTypeGuildVoice, ParentID := "CAT1" },
    channelUpdate := Except.ok { ID := "C1", Typ := 0, ParentID := "CAT1" },
    nowCheck := t, nowCommit := t, sendErr := some "HTTP 500" }

/-- Two joins of guild `G1`, at clock values 0 and one second. -/
def overflowSteps : List (Session × VoiceStateUpdate) :=
  [(scenarioSession "CAT1" 0, scenarioEvent), (scenarioSession "CAT1" (1 * Second), scenarioEvent)]

/-- Four joins of guild `G1`, at clock values 0, 10, 61 and 100 seconds. -/
def scenarioSteps : List (Session × VoiceStateUpdate) :=
  [(scenarioSession "CAT1" 0, scenarioEvent),
   (scenarioSession "CAT1" (10 * Second), scenarioEvent),
   (scenarioSession "CAT1" (61 * Second), scenarioEvent),
   (scenarioSession "CAT1" (100 * Second), scenarioEvent)]

/-- The scenario join, but of a self-muted user. -/
def mutedEvent : VoiceStateUpdate :=
  { GuildID := "G1", ChannelID := "V1", Suppress := false, SelfMute := true,
    SelfDeaf := false, Mute := false, Deaf := false, BeforeUpdate := none }

/-- A leave event of guild `G1`: the channel id is empty. -/
def leaveEvent : VoiceStateUpdate :=
  { GuildID := "G1", ChannelID := "", Suppress := false, SelfMute := false,
    SelfDeaf := false, Mute := false, Deaf := false, BeforeUpdate := none }

/-- A voice state in channel `channelID` of guild `guildID`, no flag set. -/
def plainVoiceState (guildID channelID : String) : VoiceState :=
  { GuildID := guildID, ChannelID := channelID, Suppress := false, SelfMute := false,
    SelfDeaf := false, Mute := false, Deaf := false }

/-- A switch from channel `V0` to channel `V1` inside guild `G1`. -/
def switchEvent : VoiceStateUpdate :=
  { GuildID := "G1", ChannelID := "V1", Suppress := false, SelfMute := false,
    SelfDeaf := false, Mute := false, Deaf := false,
    BeforeUpdate := some (plainVoiceState "G1" "V0") }

/-- A join of guild `G1` whose snapshot comes from another guild, `G0`. -/
def arrivalEvent : VoiceStateUpdate :=
  { GuildID := "G1", ChannelID := "V1", Suppress := false, SelfMute := false,
    SelfDeaf := false, Mute := false, Deaf := false,
    BeforeUpdate := some (plainVoiceState "G0" "V7") }

/-- A bot on the scenario configuration that notified `G1` at clock value 0
and holds an entry for a guild `G2` at clock value 5 seconds. -/
def twoGuildBot : DomoBot :=
  { config := scenarioConfig,
    updateTimes := mapSet (mapSet (fun _ => none) "G1" 0) "G2" (5 * Second),
    index := 4 }

/-- Platform answers in which the joined channel is a text channel. -/
def textChannelSession : Session :=
  { channelJoined := Except.ok { ID := "V1", Typ := 0, ParentID := "CAT1" },
    channelUpdate := Except.ok { ID := "C1", Typ := 0, ParentID := "CAT1" },
    nowCheck := 0, nowCommit := 0, sendErr := none }

/-! ## Basic facts -/

theorem wrap64_of_representable (x : Int) (hlo : -9223372036854775808 ≤ x)
    (hhi : x ≤ 9223372036854775807) : wrap64 x = x := by
  unfold wrap64
  omega

theorem rateLimitPeriod_of_representable (c : DomoBotConfig) (h : periodRepresentable c) :
    c.rateLimitPeriod = c.RateLimitSec * Second := by
  obtain ⟨hlo, hhi⟩ := h
  unfold DomoBotConfig.rateLimitPeriod Second
  apply wrap64_of_representable <;> omega

theorem updatedRecently_eq_true_iff (d : DomoBot) (guildId : String) (now : Time) :
    d.updatedRecently guildId now = true ↔
      ∃ last, d.updateTimes guildId = some last ∧ now < last + d.config.rateLimitPeriod := by
  unfold DomoBot.updatedRecently
  cases h : d.updateTimes guildId with
  | none => simp
  | some t => simp

theorem voiceStateUpdate_of_unregistered (d : DomoBot) (s : Session) (e : VoiceStateUpdate)
    (h : d.config.domoUpdateChannelId e.GuildID = "") : d.voiceStateUpdate s e = (d, []) := by
  unfold DomoBot.voiceStateUpdate
  simp [h]

/-! ## Cooldown tracker -/

/-- C4 (counterexample): with `RateLimitSec = 9223372037` and an entry
`lastNotifiedAt = 0` for the guild, the clock value `now = 1` satisfies
`now < lastNotifiedAt + RateLimitSec seconds`, yet `updatedRecently` returns
false: the `int64` product `RateLimitSec * time.Second` has wrapped around. -/
theorem updatedRecently_overflow :
    overflowBot.updateTimes "G1" = some 0 ∧
    (1 : Int) < 0 + overflowBot.config.RateLimitSec * Second ∧
    overflowBot.updatedRecently "G1" 1 = false := by
  decide

/-- C4 (amended): with no entry for the guild `updatedRecently` returns false
for every clock value and every `RateLimitSec`; and when `RateLimitSec * 10^9`
is representable as an `int64`, it returns true if and only if the map holds
an entry `last` for the guild with `now < last + RateLimitSec` seconds, the
comparison being strict (false at `now = last + RateLimitSec` seconds). -/
theorem updatedRecently_spec (d : DomoBot) (guildId : String) (now : Time) :
    (d.updateTimes guildId = none → d.updatedRecently guildId now = false) ∧
    (periodRepresentable d.config →
      (d.updatedRecently guildId now = true ↔
        ∃ last, d.updateTimes guildId = some last ∧
          now < last + d.config.RateLimitSec * Second) ∧
      (∀ last, d.updateTimes guildId = some last →
        d.updatedRecently guildId (last + d.config.RateLimitSec * Second) = false)) := by
  refine ⟨?_, ?_⟩
  · intro h
    simp [DomoBot.updatedRecently, h]
  · intro hrep
    have hp := rateLimitPeriod_of_representable d.config hrep
    refine ⟨?_, ?_⟩
    · rw [updatedRecently_eq_true_iff, hp]
    · intro last hlast
      simp [DomoBot.updatedRecently, hlast, hp]

/-- C4 (witness): on the scenario configuration (60 seconds) with an entry at
clock value 0, the guild is suppressed 10 seconds later. -/
theorem updatedRecently_spec_witness :
    periodRepresentable scenarioConfig ∧
    (⟨scenarioConfig, mapSet (fun _ => none) "G1" 0, 4⟩ : DomoBot).updatedRecently "G1"
      (10 * Second) = true :=
  ⟨by decide,
   ((updatedRecently_spec ⟨scenarioConfig, mapSet (fun _ => none) "G1" 0, 4⟩ "G1"
      (10 * Second)).2 (by decide)).1.mpr ⟨0, by decide, by decide⟩⟩

/-! ## Guild routing table -/

theorem domoUpdateChannelIdLoop_of_not_listed (servers : List Server) (g : String)
    (h : ∀ s ∈ servers, s.GuildId ≠ g) : domoUpdateChannelIdLoop servers g = "" := by
  induction servers with
  | nil => rfl
  | cons x rest ih =>
    have hx : x.GuildId ≠ g := h x (List.mem_cons_self x rest)
    have hrest : ∀ s ∈ rest, s.GuildId ≠ g := fun s hs => h s (List.mem_cons_of_mem x hs)
    simp [domoUpdateChannelIdLoop, hx, ih hrest]

theorem domoUpdateChannelIdLoop_first (pre : List Server) (s : Server) (post : List Server)
    (g : String) (hpre : ∀ x ∈ pre, x.GuildId ≠ g) (hs : s.GuildId = g) :
    domoUpdateChannelIdLoop (pre ++ s :: post) g = s.DomoUpdateChannelId := by
  induction pre with
  | nil => simp [domoUpdateChannelIdLoop, hs]
  | cons x rest ih =>
    have hx : x.GuildId ≠ g := hpre x (List.mem_cons_self x rest)
    have hrest : ∀ y ∈ rest, y.GuildId ≠ g := fun y hy => hpre y (List.mem_cons_of_mem x hy)
    simp only [List.cons_append, domoUpdateChannelIdLoop, if_neg hx]
    exact ih hrest

theorem domoUpdateChannelIdLoop_of_nodup (servers : List Server) (g : String)
    (hnd : (servers.map Server.GuildId).Nodup) (s : Server) (hmem : s ∈ servers)
    (hs : s.GuildId = g) : domoUpdateChannelIdLoop servers g = s.DomoUpdateChannelId := by
  induction servers with
  | nil => cases hmem
  | cons x rest ih =>
    rw [List.map_cons, List.nodup_cons] at hnd
    rcases List.mem_cons.mp hmem with hsx | hsrest
    · subst hsx
      simp [domoUpdateChannelIdLoop, hs]
    · have hx : x.GuildId ≠ g := by
        intro hxg
        apply hnd.1
        rw [hxg, ← hs]
        exact List.mem_map_of_mem Server.GuildId hsrest
      simp only [domoUpdateChannelIdLoop, if_neg hx]
      exact ih hnd.2 hsrest

/-- C6 (counterexample): the configuration list `[(G1, C1), (G1, C2)]` lists
guild `G1` with channel `C2`, yet `domoUpdateChannelId "G1"` is `C1`, not the
`C2` of that entry. -/
theorem domoUpdateChannelId_duplicate :
    ({ GuildId := "G1", DomoUpdateChannelId := "C2" } : Server) ∈ duplicateConfig.Servers ∧
    duplicateConfig.domoUpdateChannelId "G1" = "C1" ∧
    duplicateConfig.domoUpdateChannelId "G1" ≠ "C2" := by
  decide

/-- C6 (amended): for every configuration list and every guild id `g`,
`domoUpdateChannelId g` is the empty string when no entry has guild id `g`,
and otherwise the `DomoUpdateChannelId` of the first entry with guild id `g`;
so when the guild ids of the list are pairwise distinct it is exactly the
configured channel of every listed entry. -/
theorem domoUpdateChannelId_spec (c : DomoBotConfig) (g : String) :
    ((∀ s ∈ c.Servers, s.GuildId ≠ g) → c.domoUpdateChannelId g = "") ∧
    (∀ pre s post, c.Servers = pre ++ s :: post → (∀ x ∈ pre, x.GuildId ≠ g) →
      s.GuildId = g → c.domoUpdateChannelId g = s.DomoUpdateChannelId) ∧
    ((c.Servers.map Server.GuildId).Nodup →
      ∀ s ∈ c.Servers, s.GuildId = g → c.domoUpdateChannelId g = s.DomoUpdateChannelId) := by
  refine ⟨?_, ?_, ?_⟩
  · intro h
    exact domoUpdateChannelIdLoop_of_not_listed c.Servers g h
  · intro pre s post hsplit hpre hs
    unfold DomoBotConfig.domoUpdateChannelId
    rw [hsplit]
    exact domoUpdateChannelIdLoop_first pre s post g hpre hs
  · intro hnd s hmem hs
    exact domoUpdateChannelIdLoop_of_nodup c.Servers g hnd s hmem hs

/-- C6 (witness): on the scenario configuration, guild `G1` is routed to `C1`
(as the entry after an empty prefix, and as an entry of a duplicate-free
list) and the unlisted guild `G2` to the empty string. -/
theorem domoUpdateChannelId_spec_witness :
    (scenarioConfig.Servers.map Server.GuildId).Nodup ∧
    scenarioConfig.domoUpdateChannelId "G1" = "C1" ∧
    scenarioConfig.domoUpdateChannelId "G1" = "C1" ∧
    scenarioConfig.domoUpdateChannelId "G2" = "" :=
  ⟨by decide,
   (domoUpdateChannelId_spec scenarioConfig "G1").2.2 (by decide) ⟨"G1", "C1"⟩ (by decide) rfl,
   (domoUpdateChannelId_spec scenarioConfig "G1").2.1 [] ⟨"G1", "C1"⟩ [] rfl
     (fun _ h => nomatch h) rfl,
   (domoUpdateChannelId_spec scenarioConfig "G2").1 (by decide)⟩

/-! ## Handler: events that leave the bot untouched -/

theorem run_of_unregistered (d : DomoBot) (e : VoiceStateUpdate)
    (h : d.config.domoUpdateChannelId e.GuildID = "") (ss : List Session) :
    run d (ss.map fun s => (s, e)) = (d, ss.map fun s => (s, e, [])) := by
  induction ss with
  | nil => rfl
  | cons s rest ih =>
    simp only [List.map_cons, run, voiceStateUpdate_of_unregistered d s e h, ih]
    simp

/-- C10: for every event whose guild is not registered
(`domoUpdateChannelId` returns the empty string) and all platform answers,
`voiceStateUpdate` returns the state it was given (same cooldown map, same
cursor) and performs no effect, in particular no send; and handling the
event any number of times, under any platform answers, ends in the state
before, with no send at any step. -/
theorem voiceStateUpdate_unregistered_noop (d : DomoBot) (e : VoiceStateUpdate)
    (h : d.config.domoUpdateChannelId e.GuildID = "") :
    (∀ s, (d.voiceStateUpdate s e).1 = d ∧ (d.voiceStateUpdate s e).2 = [] ∧
      sends (d.voiceStateUpdate s e).2 = []) ∧
    (∀ ss : List Session, (run d (ss.map fun s => (s, e))).1 = d ∧
      ∀ step ∈ (run d (ss.map fun s => (s, e))).2, sends step.2.2 = []) := by
  refine ⟨?_, ?_⟩
  · intro s
    rw [voiceStateUpdate_of_unregistered d s e h]
    exact ⟨rfl, rfl, rfl⟩
  · intro ss
    rw [run_of_unregistered d e h ss]
    refine ⟨rfl, ?_⟩
    intro step hstep
    obtain ⟨s, -, rfl⟩ := List.mem_map.mp hstep
    rfl

/-- C10 (witness): the scenario bot handles an event of the unlisted guild
`G2` three times and is left as it was. -/
theorem voiceStateUpdate_unregistered_noop_witness :
    scenarioBot.config.domoUpdateChannelId strangerEvent.GuildID = "" ∧
    (run scenarioBot ([scenarioSession "CAT1" 0, scenarioSession "CAT1" 1,
      scenarioSession "CAT1" 2].map fun s => (s, strangerEvent))).1 = scenarioBot :=
  ⟨by decide,
   ((voiceStateUpdate_unregistered_noop scenarioBot strangerEvent (by decide)).2
      [scenarioSession "CAT1" 0, scenarioSession "CAT1" 1, scenarioSession "CAT1" 2]).1⟩

theorem voiceStateUpdate_of_parent_ne (d : DomoBot) (s : Session) (e : VoiceStateUpdate)
    (ch updateCh : Channel) (hj : s.channelJoined = Except.ok ch)
    (hu : s.channelUpdate = Except.ok updateCh) (hne : updateCh.ParentID ≠ ch.ParentID) :
    (d.voiceStateUpdate s e).1 = d ∧ sends (d.voiceStateUpdate s e).2 = [] ∧
    (∀ g t, Effect.mapWrite g t ∉ (d.voiceStateUpdate s e).2) := by
  unfold DomoBot.voiceStateUpdate
  simp only [hj, hu]
  split_ifs <;> simp_all [sends]

/-- C7: whenever the fetched update channel and the fetched joined channel
have different `ParentID`s, `voiceStateUpdate` sends no message, never writes
the cooldown map and returns the state unchanged, whatever the event and the
state are. -/
theorem voiceStateUpdate_parent_mismatch (d : DomoBot) (s : Session) (e : VoiceStateUpdate)
    (ch updateCh : Channel) (hj : s.channelJoined = Except.ok ch)
    (hu : s.channelUpdate = Except.ok updateCh) (hne : updateCh.ParentID ≠ ch.ParentID) :
    sends (d.voiceStateUpdate s e).2 = [] ∧
    (d.voiceStateUpdate s e).1.updateTimes = d.updateTimes ∧
    (∀ g t, Effect.mapWrite g t ∉ (d.voiceStateUpdate s e).2) ∧
    (d.voiceStateUpdate s e).1 = d := by
  obtain ⟨hd, hs, hw⟩ := voiceStateUpdate_of_parent_ne d s e ch updateCh hj hu hne
  exact ⟨hs, by rw [hd], hw, hd⟩

/-- C7 (witness): joined channel `V1` in category `CAT1`, update channel `C1`
in category `CAT2`: no send, cooldown map unchanged. -/
theorem voiceStateUpdate_parent_mismatch_witness :
    sends (scenarioBot.voiceStateUpdate (scenarioSession "CAT2" 0) scenarioEvent).2 = [] ∧
    (scenarioBot.voiceStateUpdate (scenarioSession "CAT2" 0) scenarioEvent).1.updateTimes =
      scenarioBot.updateTimes :=
  ⟨(voiceStateUpdate_parent_mismatch scenarioBot (scenarioSession "CAT2" 0) scenarioEvent
      { ID := "V1", Typ := ChannelTypeGuildVoice, ParentID := "CAT1" }
      { ID := "C1", Typ := 0, ParentID := "CAT2" } rfl rfl (by decide)).1,
   (voiceStateUpdate_parent_mismatch scenarioBot (scenarioSession "CAT2" 0) scenarioEvent
      { ID := "V1", Typ := ChannelTypeGuildVoice, ParentID := "CAT1" }
      { ID := "C1", Typ := 0, ParentID := "CAT2" } rfl rfl (by decide)).2.1⟩

/-! ## Handler: metadata fetch failures -/

theorem sameGuildSwitch_eq_false (e : VoiceStateUpdate)
    (h : ∀ before, e.BeforeUpdate = some before → before.GuildID ≠ e.GuildID) :
    sameGuildSwitch e = false := by
  unfold sameGuildSwitch
  cases hb : e.BeforeUpdate with
  | none => rfl
  | some before => simpa using h before hb

theorem sameGuildSwitch_eq_false_iff (e : VoiceStateUpdate) :
    sameGuildSwitch e = false ↔
      ∀ before, e.BeforeUpdate = some before → before.GuildID ≠ e.GuildID := by
  constructor
  · intro h before hb
    unfold sameGuildSwitch at h
    rw [hb] at h
    simpa using h
  · exact sameGuildSwitch_eq_false e

/-- C9: for every event that reaches the channel-type step, if the fetch of
`e.ChannelID` fails, or it succeeds with a voice channel and the fetch of the
update channel fails, then `voiceStateUpdate` logs the error, sends no
message and returns the state unchanged (same cooldown map, same cursor), so
every later event is handled exactly as from the state before. -/
theorem voiceStateUpdate_fetch_failure (d : DomoBot) (s : Session) (e : VoiceStateUpdate)
    (hlocal : passesLocalFilters d.config e)
    (hfail : (∃ err, s.channelJoined = Except.error err) ∨
      (∃ ch err, s.channelJoined = Except.ok ch ∧ ch.Typ = ChannelTypeGuildVoice ∧
        s.channelUpdate = Except.error err)) :
    sends (d.voiceStateUpdate s e).2 = [] ∧
    (d.voiceStateUpdate s e).1 = d ∧
    (d.voiceStateUpdate s e).1.updateTimes = d.updateTimes ∧
    (d.voiceStateUpdate s e).1.index = d.index ∧
    (∃ text, Effect.logPrintf text ∈ (d.voiceStateUpdate s e).2) ∧
    (∀ s2 e2, (d.voiceStateUpdate s e).1.voiceStateUpdate s2 e2 = d.voiceStateUpdate s2 e2) := by
  obtain ⟨h1, h2, h3, h4, h5, h6, h7, h8⟩ := hlocal
  have hsw := sameGuildSwitch_eq_false e h8
  have key : (d.voiceStateUpdate s e).1 = d ∧ sends (d.voiceStateUpdate s e).2 = [] ∧
      ∃ text, Effect.logPrintf text ∈ (d.voiceStateUpdate s e).2 := by
    unfold DomoBot.voiceStateUpdate
    rcases hfail with ⟨err, hj⟩ | ⟨ch, err, hj, hty, hu⟩
    · simp [h1, h2, h3, h4, h5, h6, h7, hsw, hj, sends]
    · simp [h1, h2, h3, h4, h5, h6, h7, hsw, hj, hty, hu, sends]
  obtain ⟨hd, hs, hl⟩ := key
  refine ⟨hs, hd, ?_, ?_, hl, ?_⟩
  · rw [hd]
  · rw [hd]
  · intro s2 e2
    rw [hd]

/-- C9 (witness): the scenario bot gets an error for the joined channel:
no send, state unchanged. -/
theorem voiceStateUpdate_fetch_failure_witness :
    passesLocalFilters scenarioBot.config scenarioEvent ∧
    sends (scenarioBot.voiceStateUpdate failingSession scenarioEvent).2 = [] ∧
    (scenarioBot.voiceStateUpdate failingSession scenarioEvent).1 = scenarioBot :=
  have hlocal : passesLocalFilters scenarioBot.config scenarioEvent :=
    ⟨by decide, by decide, rfl, rfl, rfl, rfl, rfl, fun _ h => nomatch h⟩
  ⟨hlocal,
   (voiceStateUpdate_fetch_failure scenarioBot failingSession scenarioEvent hlocal
      (Or.inl ⟨"HTTP 500", rfl⟩)).1,
   (voiceStateUpdate_fetch_failure scenarioBot failingSession scenarioEvent hlocal
      (Or.inl ⟨"HTTP 500", rfl⟩)).2.1⟩

/-! ## Message cycler -/

theorem numMsgs_eq : numMsgs = 18 := by decide

theorem msgs_nodup : msgs.Nodup := by decide

theorem fomoFunc_cursor (i : Int) (h0 : 0 ≤ i) (h1 : i < numMsgs) :
    0 ≤ (fomoFunc i).1 ∧ (fomoFunc i).1 < numMsgs ∧ (fomoFunc i).1 = (i + 1) % numMsgs ∧
    (fomoFunc i).2.isSome = true := by
  rw [numMsgs_eq] at h1
  interval_cases i <;> decide

theorem cursorAfter_in_pool (k : Nat) (i : Int) (h0 : 0 ≤ i) (h1 : i < numMsgs) :
    0 ≤ cursorAfter i k ∧ cursorAfter i k < numMsgs := by
  induction k generalizing i with
  | zero => exact ⟨h0, h1⟩
  | succ n ih =>
    obtain ⟨hn0, hn1, -, -⟩ := fomoFunc_cursor i h0 h1
    exact ih (fomoFunc i).1 hn0 hn1

theorem draws_two (c : Int) (h0 : 0 ≤ c) (h1 : c < numMsgs) :
    ∃ a b, draws c 2 = [some a, some b] ∧ a ≠ b := by
  rw [numMsgs_eq] at h1
  interval_cases c <;> exact ⟨_, _, rfl, by decide⟩

theorem draws_pool (c : Int) (h0 : 0 ≤ c) (h1 : c < numMsgs) :
    draws c msgs.length = (msgs.rotate (c.toNat + 1)).map some := by
  rw [numMsgs_eq] at h1
  interval_cases c <;> rfl

/-- C5: for every initial cursor in `[0, poolSize)` and every number `k` of
earlier draws, the next two calls of the closure of `newFomoFunc` return two
different strings, and the next `poolSize = 18` calls return a list that is a
permutation of the pool, in which every pool entry occurs exactly once. -/
theorem fomoFunc_no_repeat_full_cover (start : Int) (h0 : 0 ≤ start) (h1 : start < numMsgs)
    (k : Nat) :
    (∃ a b, draws (cursorAfter start k) 2 = [some a, some b] ∧ a ≠ b) ∧
    (∃ l : List String, draws (cursorAfter start k) msgs.length = l.map some ∧
      l.length = 18 ∧ l.Perm msgs ∧ ∀ m ∈ msgs, l.count m = 1) := by
  obtain ⟨hc0, hc1⟩ := cursorAfter_in_pool k start h0 h1
  refine ⟨draws_two _ hc0 hc1, msgs.rotate ((cursorAfter start k).toNat + 1),
    draws_pool _ hc0 hc1, ?_, List.rotate_perm _ _, ?_⟩
  · rw [List.length_rotate]
    rfl
  · intro m hm
    rw [(List.rotate_perm msgs _).count_eq m]
    exact List.count_eq_one_of_mem msgs_nodup hm

/-- C5 (witness): from the initial cursor 16, after 3 earlier draws, the next
two strings differ and the next 18 strings cover the pool. -/
theorem fomoFunc_no_repeat_full_cover_witness :
    (0 : Int) ≤ 16 ∧ (16 : Int) < numMsgs ∧
    (∃ a b, draws (cursorAfter 16 3) 2 = [some a, some b] ∧ a ≠ b) ∧
    (∃ l : List String, draws (cursorAfter 16 3) msgs.length = l.map some ∧
      l.length = 18 ∧ l.Perm msgs ∧ ∀ m ∈ msgs, l.count m = 1) :=
  ⟨by decide, by decide, fomoFunc_no_repeat_full_cover 16 (by decide) (by decide) 3⟩

/-! ## Handler: the send decision -/

theorem sends_append (a b : List Effect) : sends (a ++ b) = sends a ++ sends b := by
  induction a with
  | nil => rfl
  | cons x rest ih => cases x <;> simp [sends, ih]

theorem sends_updatedRecentlyTrace (d : DomoBot) (g : String) :
    sends (d.updatedRecentlyTrace g) = [] := by
  unfold DomoBot.updatedRecentlyTrace
  cases d.updateTimes g <;> rfl

theorem commit_fst (d : DomoBot) (s : Session) (g u : String) :
    (d.commit s g u).1 =
      { config := d.config, updateTimes := mapSet d.updateTimes g s.nowCommit,
        index := (fomoFunc d.index).1 } := by
  unfold DomoBot.commit
  cases h : (fomoFunc d.index).2 <;> simp only [h]

theorem sends_commit_some (d : DomoBot) (s : Session) (g u text : String)
    (h : (fomoFunc d.index).2 = some text) : sends (d.commit s g u).2 = [(u, text)] := by
  unfold DomoBot.commit
  simp only [h]
  cases s.sendErr <;> rfl

theorem sends_commit_none (d : DomoBot) (s : Session) (g u : String)
    (h : (fomoFunc d.index).2 = none) : sends (d.commit s g u).2 = [] := by
  unfold DomoBot.commit
  simp only [h]
  rfl

theorem voiceStateUpdate_of_not_local (d : DomoBot) (s : Session) (e : VoiceStateUpdate)
    (h : ¬ passesLocalFilters d.config e) : d.voiceStateUpdate s e = (d, []) := by
  unfold DomoBot.voiceStateUpdate
  by_cases h1 : d.config.domoUpdateChannelId e.GuildID = ""
  · simp [h1]
  by_cases h2 : e.ChannelID = ""
  · simp [h2]
  by_cases h3 : (e.Suppress || e.SelfMute || e.SelfDeaf || e.Mute || e.Deaf) = true
  · simp only [h3, if_true, ite_self]
  by_cases h4 : sameGuildSwitch e = true
  · simp only [h4, if_true, ite_self]
  exfalso
  apply h
  simp only [Bool.or_eq_true, not_or, Bool.not_eq_true] at h3
  obtain ⟨⟨⟨⟨a, b⟩, c⟩, f⟩, g⟩ := h3
  rw [Bool.not_eq_true] at h4
  exact ⟨h1, h2, a, b, c, f, g, (sameGuildSwitch_eq_false_iff e).mp h4⟩

theorem voiceStateUpdate_of_not_fetch (d : DomoBot) (s : Session) (e : VoiceStateUpdate)
    (h : ¬ passesFetchFilters s) :
    (d.voiceStateUpdate s e).1 = d ∧ sends (d.voiceStateUpdate s e).2 = [] := by
  cases hj : s.channelJoined with
  | error err =>
    unfold DomoBot.voiceStateUpdate
    simp only [hj]
    split_ifs <;> simp [sends]
  | ok ch =>
    cases hu : s.channelUpdate with
    | error err =>
      unfold DomoBot.voiceStateUpdate
      simp only [hj, hu]
      split_ifs <;> simp [sends]
    | ok updateCh =>
      by_cases hty : ch.Typ = ChannelTypeGuildVoice
      · by_cases hp : updateCh.ParentID = ch.ParentID
        · exact absurd ⟨ch, updateCh, hj, hty, hu, hp⟩ h
        · exact ⟨(voiceStateUpdate_of_parent_ne d s e ch updateCh hj hu hp).1,
            (voiceStateUpdate_of_parent_ne d s e ch updateCh hj hu hp).2.1⟩
      · unfold DomoBot.voiceStateUpdate
        simp only [hj, hu]
        split_ifs <;> simp_all [sends]

theorem voiceStateUpdate_of_filters (d : DomoBot) (s : Session) (e : VoiceStateUpdate)
    (hl : passesLocalFilters d.config e) (hf : passesFetchFilters s) :
    d.voiceStateUpdate s e =
      if d.updatedRecently e.GuildID s.nowCheck = true then
        (d, [Effect.channel e.ChannelID,
             Effect.channel (d.config.domoUpdateChannelId e.GuildID)] ++
              d.updatedRecentlyTrace e.GuildID)
      else
        ((d.commit s e.GuildID (d.config.domoUpdateChannelId e.GuildID)).1,
          [Effect.channel e.ChannelID,
           Effect.channel (d.config.domoUpdateChannelId e.GuildID)] ++
            d.updatedRecentlyTrace e.GuildID ++
            (d.commit s e.GuildID (d.config.domoUpdateChannelId e.GuildID)).2) := by
  obtain ⟨h1, h2, h3, h4, h5, h6, h7, h8⟩ := hl
  obtain ⟨ch, updateCh, hj, hty, hu, hp⟩ := hf
  have hsw := sameGuildSwitch_eq_false e h8
  unfold DomoBot.voiceStateUpdate
  simp [h1, h2, h3, h4, h5, h6, h7, hsw, hj, hty, hu, hp]

theorem count_draw_updatedRecentlyTrace (d : DomoBot) (g : String) :
    (d.updatedRecentlyTrace g).count Effect.draw = 0 := by
  unfold DomoBot.updatedRecentlyTrace
  cases d.updateTimes g <;> simp [List.count_cons]

theorem count_draw_commit (d : DomoBot) (s : Session) (g u : String) :
    (d.commit s g u).2.count Effect.draw = 1 := by
  unfold DomoBot.commit
  cases h : (fomoFunc d.index).2 with
  | none => simp [h, List.count_cons]
  | some text =>
    simp only [h]
    cases s.sendErr <;> simp [List.count_cons]

theorem voiceStateUpdate_send_of_filters (d : DomoBot) (s : Session) (e : VoiceStateUpdate)
    (hl : passesLocalFilters d.config e) (hf : passesFetchFilters s)
    (hr : d.updatedRecently e.GuildID s.nowCheck = false) (text : String)
    (ht : (fomoFunc d.index).2 = some text) :
    sends (d.voiceStateUpdate s e).2 = [(d.config.domoUpdateChannelId e.GuildID, text)] ∧
    (d.voiceStateUpdate s e).2.count Effect.draw = 1 ∧
    (d.voiceStateUpdate s e).1 =
      { config := d.config, updateTimes := mapSet d.updateTimes e.GuildID s.nowCommit,
        index := (fomoFunc d.index).1 } := by
  rw [voiceStateUpdate_of_filters d s e hl hf]
  simp only [hr, Bool.false_eq_true, if_false]
  refine ⟨?_, ?_, commit_fst _ _ _ _⟩
  · rw [sends_append, sends_append, sends_updatedRecentlyTrace, sends_commit_some _ _ _ _ _ ht]
    rfl
  · rw [List.count_append, List.count_append, count_draw_updatedRecentlyTrace,
      count_draw_commit]
    simp [List.count_cons]

theorem voiceStateUpdate_of_recent (d : DomoBot) (s : Session) (e : VoiceStateUpdate)
    (hr : d.updatedRecently e.GuildID s.nowCheck = true) :
    (d.voiceStateUpdate s e).1 = d ∧ sends (d.voiceStateUpdate s e).2 = [] := by
  by_cases hl : passesLocalFilters d.config e
  · by_cases hf : passesFetchFilters s
    · rw [voiceStateUpdate_of_filters d s e hl hf]
      simp only [hr, if_true]
      refine ⟨trivial, ?_⟩
      rw [sends_append, sends_updatedRecentlyTrace]
      rfl
    · exact voiceStateUpdate_of_not_fetch d s e hf
  · rw [voiceStateUpdate_of_not_local d s e hl]
    exact ⟨rfl, rfl⟩

theorem fomoFunc_some_of_cursor (d : DomoBot) (h : cursorInPool d) :
    ∃ text, (fomoFunc d.index).2 = some text :=
  Option.isSome_iff_exists.mp (fomoFunc_cursor d.index h.1 h.2).2.2.2

/-- C1: for every state whose cursor is a pool position, every event, all
clock values and every pair of channel-fetch results, `voiceStateUpdate`
attempts a send if and only if the guild is registered, the channel id is
non-empty, no mute or deafen flag is set, there is no `BeforeUpdate` of the
same guild, the joined channel is fetched and is a voice channel, the update
channel is fetched and has the same `ParentID`, and `updatedRecently` is
false; and when it attempts a send there is exactly one, addressed to
`domoUpdateChannelId e.GuildID`, whose text is the result of the single draw
of the message cycler made by the handler. -/
theorem voiceStateUpdate_send_iff (d : DomoBot) (s : Session) (e : VoiceStateUpdate)
    (hcur : cursorInPool d) :
    (sends (d.voiceStateUpdate s e).2 ≠ [] ↔
      passesLocalFilters d.config e ∧ passesFetchFilters s ∧
        d.updatedRecently e.GuildID s.nowCheck = false) ∧
    (sends (d.voiceStateUpdate s e).2 ≠ [] →
      ∃ text, (fomoFunc d.index).2 = some text ∧
        sends (d.voiceStateUpdate s e).2 = [(d.config.domoUpdateChannelId e.GuildID, text)] ∧
        (d.voiceStateUpdate s e).2.count Effect.draw = 1) := by
  obtain ⟨text, ht⟩ := fomoFunc_some_of_cursor d hcur
  have hiff : sends (d.voiceStateUpdate s e).2 ≠ [] ↔
      passesLocalFilters d.config e ∧ passesFetchFilters s ∧
        d.updatedRecently e.GuildID s.nowCheck = false := by
    constructor
    · intro hne
      by_cases hl : passesLocalFilters d.config e
      · by_cases hf : passesFetchFilters s
        · cases hr : d.updatedRecently e.GuildID s.nowCheck with
          | false => exact ⟨hl, hf, rfl⟩
          | true => exact absurd (voiceStateUpdate_of_recent d s e hr).2 hne
        · exact absurd (voiceStateUpdate_of_not_fetch d s e hf).2 hne
      · rw [voiceStateUpdate_of_not_local d s e hl] at hne
        exact absurd rfl hne
    · rintro ⟨hl, hf, hr⟩
      rw [(voiceStateUpdate_send_of_filters d s e hl hf hr text ht).1]
      exact List.cons_ne_nil _ _
  refine ⟨hiff, ?_⟩
  intro hne
  obtain ⟨hl, hf, hr⟩ := hiff.mp hne
  exact ⟨text, ht, (voiceStateUpdate_send_of_filters d s e hl hf hr text ht).1,
    (voiceStateUpdate_send_of_filters d s e hl hf hr text ht).2.1⟩

/-- C1 (witness): the scenario bot (cursor 4) handles the scenario join: one
send, to `C1`, with the pool entry at position 5. -/
theorem voiceStateUpdate_send_iff_witness :
    cursorInPool scenarioBot ∧
    sends (scenarioBot.voiceStateUpdate (scenarioSession "CAT1" 0) scenarioEvent).2 ≠ [] :=
  ⟨by decide,
   (voiceStateUpdate_send_iff scenarioBot (scenarioSession "CAT1" 0) scenarioEvent
      (by decide)).1.mpr
     ⟨⟨by decide, by decide, rfl, rfl, rfl, rfl, rfl, fun _ h => nomatch h⟩,
      ⟨_, _, rfl, rfl, rfl, rfl⟩, by decide⟩⟩

/-! ## Handler: cooldown commit -/

theorem voiceStateUpdate_cases (d : DomoBot) (s : Session) (e : VoiceStateUpdate) :
    ((d.voiceStateUpdate s e).1 = d ∧ sends (d.voiceStateUpdate s e).2 = []) ∨
    (passesLocalFilters d.config e ∧ passesFetchFilters s ∧
      d.updatedRecently e.GuildID s.nowCheck = false ∧
      (d.voiceStateUpdate s e).1 =
        { config := d.config, updateTimes := mapSet d.updateTimes e.GuildID s.nowCommit,
          index := (fomoFunc d.index).1 }) := by
  by_cases hl : passesLocalFilters d.config e
  · by_cases hf : passesFetchFilters s
    · cases hr : d.updatedRecently e.GuildID s.nowCheck with
      | true => exact Or.inl (voiceStateUpdate_of_recent d s e hr)
      | false =>
        refine Or.inr ⟨hl, hf, rfl, ?_⟩
        rw [voiceStateUpdate_of_filters d s e hl hf]
        simp only [hr, Bool.false_eq_true, if_false]
        exact commit_fst _ _ _ _
    · exact Or.inl (voiceStateUpdate_of_not_fetch d s e hf)
  · rw [voiceStateUpdate_of_not_local d s e hl]
    exact Or.inl ⟨rfl, rfl⟩

theorem voiceStateUpdate_commit_state (d : DomoBot) (s : Session) (e : VoiceStateUpdate)
    (hl : passesLocalFilters d.config e) (hf : passesFetchFilters s)
    (hr : d.updatedRecently e.GuildID s.nowCheck = false) :
    (d.voiceStateUpdate s e).1 =
      { config := d.config, updateTimes := mapSet d.updateTimes e.GuildID s.nowCommit,
        index := (fomoFunc d.index).1 } := by
  rw [voiceStateUpdate_of_filters d s e hl hf]
  simp only [hr, Bool.false_eq_true, if_false]
  exact commit_fst _ _ _ _

theorem mapSet_same (m : String → Option Time) (k : String) (v : Time) :
    mapSet m k v k = some v := by
  simp [mapSet]

theorem mapSet_other (m : String → Option Time) (k k1 : String) (v : Time) (h : k1 ≠ k) :
    mapSet m k v k1 = m k1 := by
  simp [mapSet, h]

/-- C8 (counterexample): with `RateLimitSec = 9223372037`, a join at clock
value 0 passes all filters and its send fails; the cooldown map then holds 0
for the guild, yet a join of the same guild one second later, which is before
`0 + RateLimitSec` seconds, is not suppressed: a message is sent. -/
theorem no_rollback_overflow :
    (overflowFresh.voiceStateUpdate (failedSendSession 0) scenarioEvent).1.updateTimes "G1" =
      some 0 ∧
    1 * Second < 0 + overflowFresh.config.RateLimitSec * Second ∧
    sends ((overflowFresh.voiceStateUpdate (failedSendSession 0) scenarioEvent).1.voiceStateUpdate
      (scenarioSession "CAT1" (1 * Second)) scenarioEvent).2 ≠ [] := by
  decide

/-- C8 (amended): for every event that passes all filters, the cooldown map
afterwards holds the commit clock value for the event's guild, and the state
afterwards is the same whether the send succeeds or fails (no rollback); and
when `RateLimitSec * 10^9` is representable as an `int64`, every later event
of that guild checked at a time before that clock value plus `RateLimitSec`
seconds is suppressed: nothing is sent and the state stays as it is. -/
theorem voiceStateUpdate_no_rollback (d : DomoBot) (s : Session) (e : VoiceStateUpdate)
    (hl : passesLocalFilters d.config e) (hf : passesFetchFilters s)
    (hr : d.updatedRecently e.GuildID s.nowCheck = false) :
    (d.voiceStateUpdate s e).1.updateTimes e.GuildID = some s.nowCommit ∧
    (∀ err, (d.voiceStateUpdate { s with sendErr := err } e).1 = (d.voiceStateUpdate s e).1) ∧
    (periodRepresentable d.config → ∀ s2 e2, e2.GuildID = e.GuildID →
      s2.nowCheck < s.nowCommit + d.config.RateLimitSec * Second →
      sends ((d.voiceStateUpdate s e).1.voiceStateUpdate s2 e2).2 = [] ∧
      ((d.voiceStateUpdate s e).1.voiceStateUpdate s2 e2).1 = (d.voiceStateUpdate s e).1) := by
  have hst := voiceStateUpdate_commit_state d s e hl hf hr
  refine ⟨?_, ?_, ?_⟩
  · rw [hst]
    exact mapSet_same _ _ _
  · intro err
    have hf2 : passesFetchFilters { s with sendErr := err } := hf
    rw [hst, voiceStateUpdate_commit_state d { s with sendErr := err } e hl hf2 hr]
  · intro hrep s2 e2 hg hlt
    have hrecent : (d.voiceStateUpdate s e).1.updatedRecently e2.GuildID s2.nowCheck = true := by
      rw [updatedRecently_eq_true_iff]
      refine ⟨s.nowCommit, ?_, ?_⟩
      · rw [hst, hg]
        exact mapSet_same _ _ _
      · rw [hst]
        show s2.nowCheck < s.nowCommit + d.config.rateLimitPeriod
        rw [rateLimitPeriod_of_representable d.config hrep]
        exact hlt
    obtain ⟨h1, h2⟩ := voiceStateUpdate_of_recent (d.voiceStateUpdate s e).1 s2 e2 hrecent
    exact ⟨h2, h1⟩

/-- C8 (witness): rate limit 60 seconds, a join at clock value 0 whose send
fails: the map holds 0 for `G1`, and a join 10 seconds later is suppressed. -/
theorem voiceStateUpdate_no_rollback_witness :
    (scenarioBot.voiceStateUpdate (failedSendSession 0) scenarioEvent).1.updateTimes "G1" =
      some 0 ∧
    sends ((scenarioBot.voiceStateUpdate (failedSendSession 0) scenarioEvent).1.voiceStateUpdate
      (scenarioSession "CAT1" (10 * Second)) scenarioEvent).2 = [] :=
  have h := voiceStateUpdate_no_rollback scenarioBot (failedSendSession 0) scenarioEvent
    ⟨by decide, by decide, rfl, rfl, rfl, rfl, rfl, fun _ h => nomatch h⟩
    ⟨_, _, rfl, rfl, rfl, rfl⟩ (by decide)
  ⟨h.1, (h.2.2 (by decide) (scenarioSession "CAT1" (10 * Second)) scenarioEvent rfl
    (by decide)).1⟩

/-! ## Handler: three joins -/

/-- C3 (counterexample): with `RateLimitSec = 9223372037`, from a state with
no cooldown entry, a join at `t1 = 0` sends, and a second join at
`t2 = 10` seconds, with `t1 ≤ t2 < t1 + RateLimitSec` seconds, sends too. -/
theorem three_joins_overflow :
    overflowFresh.updateTimes "G1" = none ∧
    (0 : Int) ≤ 10 * Second ∧
    10 * Second < 0 + overflowFresh.config.RateLimitSec * Second ∧
    sends (overflowFresh.voiceStateUpdate (scenarioSession "CAT1" 0) scenarioEvent).2 ≠ [] ∧
    sends ((overflowFresh.voiceStateUpdate (scenarioSession "CAT1" 0) scenarioEvent).1.voiceStateUpdate
      (scenarioSession "CAT1" (10 * Second)) scenarioEvent).2 ≠ [] := by
  decide

/-- C3 (amended): when `RateLimitSec * 10^9` is representable as an `int64`:
for three join events of one registered guild, handled one after the other
from a state with no cooldown entry for the guild and a cursor in the pool,
where the first and the third pass every filter other than the rate limit
(the second may or may not), the first commits at `t1`, the second is checked
at `t2 < t1 + RateLimitSec` seconds and the third at
`t3 ≥ t1 + RateLimitSec` seconds: the first sends one message, the second
sends nothing and leaves the recorded time at `t1`, and the third sends one
message. -/
theorem three_joins (d : DomoBot) (s1 s2 s3 : Session) (e1 e2 e3 : VoiceStateUpdate)
    (hcur : cursorInPool d) (hrep : periodRepresentable d.config)
    (hnone : d.updateTimes e1.GuildID = none)
    (hg2 : e2.GuildID = e1.GuildID) (hg3 : e3.GuildID = e1.GuildID)
    (hl1 : passesLocalFilters d.config e1) (hl3 : passesLocalFilters d.config e3)
    (hf1 : passesFetchFilters s1) (hf3 : passesFetchFilters s3)
    (h2 : s2.nowCheck < s1.nowCommit + d.config.RateLimitSec * Second)
    (h3 : s1.nowCommit + d.config.RateLimitSec * Second ≤ s3.nowCheck) :
    ∃ d1 d2 d3 tr1 tr2 tr3 m1 m3,
      d.voiceStateUpdate s1 e1 = (d1, tr1) ∧ d1.voiceStateUpdate s2 e2 = (d2, tr2) ∧
      d2.voiceStateUpdate s3 e3 = (d3, tr3) ∧
      sends tr1 = [(d.config.domoUpdateChannelId e1.GuildID, m1)] ∧
      d1.updateTimes e1.GuildID = some s1.nowCommit ∧
      sends tr2 = [] ∧
      d2.updateTimes e1.GuildID = some s1.nowCommit ∧
      sends tr3 = [(d.config.domoUpdateChannelId e1.GuildID, m3)] := by
  have hper := rateLimitPeriod_of_representable d.config hrep
  -- first join: no entry, hence not recent
  have hr1 : d.updatedRecently e1.GuildID s1.nowCheck = false := by
    simp [DomoBot.updatedRecently, hnone]
  obtain ⟨m1, hm1⟩ := fomoFunc_some_of_cursor d hcur
  obtain ⟨hs1, -, hd1⟩ := voiceStateUpdate_send_of_filters d s1 e1 hl1 hf1 hr1 m1 hm1
  have hcfg1 : (d.voiceStateUpdate s1 e1).1.config = d.config := by rw [hd1]
  have hmap1 : (d.voiceStateUpdate s1 e1).1.updateTimes e1.GuildID = some s1.nowCommit := by
    rw [hd1]
    exact mapSet_same _ _ _
  have hcur1 : cursorInPool (d.voiceStateUpdate s1 e1).1 := by
    rw [hd1]
    exact ⟨(fomoFunc_cursor d.index hcur.1 hcur.2).1, (fomoFunc_cursor d.index hcur.1 hcur.2).2.1⟩
  -- second join: inside the window
  have hr2 : (d.voiceStateUpdate s1 e1).1.updatedRecently e2.GuildID s2.nowCheck = true := by
    rw [updatedRecently_eq_true_iff]
    exact ⟨s1.nowCommit, by rw [hg2]; exact hmap1, by rw [hcfg1, hper]; exact h2⟩
  obtain ⟨hd2, hs2⟩ := voiceStateUpdate_of_recent (d.voiceStateUpdate s1 e1).1 s2 e2 hr2
  -- third join: the window has elapsed
  have hr3 : ((d.voiceStateUpdate s1 e1).1.voiceStateUpdate s2 e2).1.updatedRecently
      e3.GuildID s3.nowCheck = false := by
    rw [hd2, hg3]
    simp only [DomoBot.updatedRecently, hmap1, hcfg1, hper]
    exact decide_eq_false (not_lt.mpr h3)
  have hl3a : passesLocalFilters
      ((d.voiceStateUpdate s1 e1).1.voiceStateUpdate s2 e2).1.config e3 := by
    rw [hd2, hcfg1]
    exact hl3
  have hcur2 : cursorInPool ((d.voiceStateUpdate s1 e1).1.voiceStateUpdate s2 e2).1 := by
    rw [hd2]
    exact hcur1
  obtain ⟨m3, hm3⟩ := fomoFunc_some_of_cursor _ hcur2
  obtain ⟨hs3, -, -⟩ := voiceStateUpdate_send_of_filters _ s3 e3 hl3a hf3 hr3 m3 hm3
  refine ⟨(d.voiceStateUpdate s1 e1).1, ((d.voiceStateUpdate s1 e1).1.voiceStateUpdate s2 e2).1,
    (((d.voiceStateUpdate s1 e1).1.voiceStateUpdate s2 e2).1.voiceStateUpdate s3 e3).1,
    (d.voiceStateUpdate s1 e1).2, ((d.voiceStateUpdate s1 e1).1.voiceStateUpdate s2 e2).2,
    (((d.voiceStateUpdate s1 e1).1.voiceStateUpdate s2 e2).1.voiceStateUpdate s3 e3).2,
    m1, m3, rfl, rfl, rfl, hs1, hmap1, hs2, ?_, ?_⟩
  · rw [hd2]
    exact hmap1
  · rw [hs3, hd2, hcfg1, hg3]

/-- C3 (witness): `RateLimitSec = 60`, joins of `G1` at clock values 1000,
1010 and 1061 seconds: send, no send, send. -/
theorem three_joins_witness :
    ∃ d1 d2 d3 tr1 tr2 tr3 m1 m3,
      scenarioBot.voiceStateUpdate (scenarioSession "CAT1" (1000 * Second)) scenarioEvent =
        (d1, tr1) ∧
      d1.voiceStateUpdate (scenarioSession "CAT1" (1010 * Second)) scenarioEvent = (d2, tr2) ∧
      d2.voiceStateUpdate (scenarioSession "CAT1" (1061 * Second)) scenarioEvent = (d3, tr3) ∧
      sends tr1 = [(scenarioBot.config.domoUpdateChannelId scenarioEvent.GuildID, m1)] ∧
      d1.updateTimes scenarioEvent.GuildID =
        some (scenarioSession "CAT1" (1000 * Second)).nowCommit ∧
      sends tr2 = [] ∧
      d2.updateTimes scenarioEvent.GuildID =
        some (scenarioSession "CAT1" (1000 * Second)).nowCommit ∧
      sends tr3 = [(scenarioBot.config.domoUpdateChannelId scenarioEvent.GuildID, m3)] :=
  three_joins scenarioBot (scenarioSession "CAT1" (1000 * Second))
    (scenarioSession "CAT1" (1010 * Second)) (scenarioSession "CAT1" (1061 * Second))
    scenarioEvent scenarioEvent scenarioEvent (by decide) (by decide) rfl rfl rfl
    ⟨by decide, by decide, rfl, rfl, rfl, rfl, rfl, fun _ h => nomatch h⟩
    ⟨by decide, by decide, rfl, rfl, rfl, rfl, rfl, fun _ h => nomatch h⟩
    ⟨_, _, rfl, rfl, rfl, rfl⟩ ⟨_, _, rfl, rfl, rfl, rfl⟩
    (by decide) (by decide)

/-! ## Sequences of events: minimum spacing -/

theorem run_cons_log (d : DomoBot) (s : Session) (e : VoiceStateUpdate)
    (rest : List (Session × VoiceStateUpdate)) :
    (run d ((s, e) :: rest)).2 =
      (s, e, (d.voiceStateUpdate s e).2) ::
        (if Effect.panic ∈ (d.voiceStateUpdate s e).2 then []
         else (run (d.voiceStateUpdate s e).1 rest).2) := by
  simp only [run]
  split_ifs <;> rfl

theorem voiceStateUpdate_config (d : DomoBot) (s : Session) (e : VoiceStateUpdate) :
    (d.voiceStateUpdate s e).1.config = d.config := by
  rcases voiceStateUpdate_cases d s e with ⟨h, -⟩ | ⟨-, -, -, h⟩ <;> rw [h]

theorem voiceStateUpdate_updateTimes (d : DomoBot) (s : Session) (e : VoiceStateUpdate)
    (g : String) :
    (d.voiceStateUpdate s e).1.updateTimes g = d.updateTimes g ∨
    (d.voiceStateUpdate s e).1.updateTimes g = some s.nowCommit := by
  rcases voiceStateUpdate_cases d s e with ⟨h, -⟩ | ⟨-, -, -, h⟩
  · left
    rw [h]
  · rw [h]
    by_cases hg : g = e.GuildID
    · right
      simp [mapSet, hg]
    · left
      simp [mapSet, hg]

theorem voiceStateUpdate_of_send (d : DomoBot) (s : Session) (e : VoiceStateUpdate)
    (h : sends (d.voiceStateUpdate s e).2 ≠ []) :
    d.updatedRecently e.GuildID s.nowCheck = false ∧
    (d.voiceStateUpdate s e).1.updateTimes e.GuildID = some s.nowCommit := by
  rcases voiceStateUpdate_cases d s e with ⟨-, hs⟩ | ⟨-, -, hr, hd⟩
  · exact absurd hs h
  · exact ⟨hr, by rw [hd]; exact mapSet_same _ _ _⟩

theorem run_spacing_aux (steps : List (Session × VoiceStateUpdate)) :
    ∀ (d : DomoBot) (lo : Time), ClockMonotone lo steps →
      (∀ g t, d.updateTimes g = some t → t ≤ lo) →
      (∀ st ∈ (run d steps).2, lo ≤ st.1.nowCheck ∧ st.1.nowCheck ≤ st.1.nowCommit ∧
        (sends st.2.2 ≠ [] → ∀ t, d.updateTimes st.2.1.GuildID = some t →
          t + d.config.rateLimitPeriod ≤ st.1.nowCheck)) ∧
      List.Pairwise (spaced d.config.rateLimitPeriod) (run d steps).2 := by
  induction steps with
  | nil =>
    intro d lo _ _
    simp [run]
  | cons x rest ih =>
    obtain ⟨s, e⟩ := x
    intro d lo hmono hinv
    obtain ⟨hlo, hcc, hrest⟩ := hmono
    have hcfg := voiceStateUpdate_config d s e
    have hmap := voiceStateUpdate_updateTimes d s e
    have hsend := voiceStateUpdate_of_send d s e
    have hinv1 : ∀ g t, (d.voiceStateUpdate s e).1.updateTimes g = some t → t ≤ s.nowCommit := by
      intro g t ht
      rcases hmap g with h | h
      · rw [h] at ht
        have := hinv g t ht
        linarith
      · rw [h] at ht
        cases ht
        exact le_refl _
    obtain ⟨ih1, ih2⟩ := ih (d.voiceStateUpdate s e).1 s.nowCommit hrest hinv1
    rw [hcfg] at ih1 ih2
    have hhead : sends (d.voiceStateUpdate s e).2 ≠ [] → ∀ t, d.updateTimes e.GuildID = some t →
        t + d.config.rateLimitPeriod ≤ s.nowCheck := by
      intro hs t ht
      have hr := (hsend hs).1
      simp only [DomoBot.updatedRecently, ht, decide_eq_false_iff_not, not_lt] at hr
      exact hr
    rw [run_cons_log]
    by_cases hp : Effect.panic ∈ (d.voiceStateUpdate s e).2
    · simp only [hp, if_true, List.mem_singleton, List.pairwise_cons, List.not_mem_nil,
        false_implies, implies_true, List.Pairwise.nil, and_self, and_true]
      intro st hst
      subst hst
      exact ⟨hlo, hcc, hhead⟩
    · simp only [hp, if_false, List.mem_cons, List.pairwise_cons]
      refine ⟨?_, ?_, ih2⟩
      · intro st hst
        rcases hst with hst | hst
        · subst hst
          exact ⟨hlo, hcc, hhead⟩
        · obtain ⟨h1, h2, h3⟩ := ih1 st hst
          refine ⟨by linarith, h2, ?_⟩
          intro hs t ht
          rcases hmap st.2.1.GuildID with h | h
          · exact h3 hs t (by rw [h]; exact ht)
          · have := h3 hs s.nowCommit h
            have := hinv _ t ht
            linarith
      · intro st hst hs1 hs2 hg
        obtain ⟨-, h2, h3⟩ := ih1 st hst
        have hcommit := (hsend hs1).2
        have hg1 : e.GuildID = st.2.1.GuildID := hg
        rw [hg1] at hcommit
        have := h3 hs2 s.nowCommit hcommit
        show s.nowCommit + d.config.rateLimitPeriod ≤ st.1.nowCheck ∧
          s.nowCommit + d.config.rateLimitPeriod ≤ st.1.nowCommit
        exact ⟨this, by linarith⟩

/-- C2 (counterexample): with `RateLimitSec = 9223372037 ≥ 0`, from the
initial state, two joins of guild `G1` at the non-decreasing clock values 0
and one second both send a message, although one second is less than
`RateLimitSec` seconds. -/
theorem run_spacing_overflow :
    0 ≤ overflowConfig.RateLimitSec ∧
    ((run (NewDomoBot overflowConfig 4) overflowSteps).2.map fun st =>
      (st.2.1.GuildID, st.1.nowCheck, st.1.nowCommit, (sends st.2.2).length)) =
      [("G1", 0, 0, 1), ("G1", 1 * Second, 1 * Second, 1)] ∧
    1 * Second - 0 < overflowConfig.RateLimitSec * Second := by
  decide

/-- C2 (amended): when `0 ≤ RateLimitSec ≤ 9223372036` (so that
`RateLimitSec * 10^9` is representable as an `int64`): for every finite
sequence of events handled from the initial state (empty `updateTimes`) with
non-decreasing clock values, any two send attempts made for the same guild
are at least `RateLimitSec` seconds apart: the clock values read by the later
one are at least `RateLimitSec` seconds after the value committed by the
earlier one. -/
theorem run_min_spacing (config : DomoBotConfig) (start : Int)
    (steps : List (Session × VoiceStateUpdate)) (lo : Time)
    (h0 : 0 ≤ config.RateLimitSec) (hhi : config.RateLimitSec ≤ 9223372036)
    (hmono : ClockMonotone lo steps) :
    List.Pairwise (spaced (config.RateLimitSec * Second))
      (run (NewDomoBot config start) steps).2 := by
  have hrep : periodRepresentable config := ⟨by omega, hhi⟩
  have h := (run_spacing_aux steps (NewDomoBot config start) lo hmono
    (fun g t ht => by simp [NewDomoBot] at ht)).2
  have hcfg : (NewDomoBot config start).config = config := rfl
  rw [hcfg, rateLimitPeriod_of_representable config hrep] at h
  exact h

/-- C2 (witness): rate limit 60 seconds, joins of `G1` at 0, 10, 61 and 100
seconds from the initial state: the send attempts are pairwise spaced. -/
theorem run_min_spacing_witness :
    ClockMonotone 0 scenarioSteps ∧
    List.Pairwise (spaced (scenarioConfig.RateLimitSec * Second))
      (run (NewDomoBot scenarioConfig 4) scenarioSteps).2 :=
  have hmono : ClockMonotone 0 scenarioSteps := by
    simp [ClockMonotone, scenarioSteps, scenarioSession, Second]
  ⟨hmono, run_min_spacing scenarioConfig 4 scenarioSteps 0 (by decide) (by decide) hmono⟩

/-! ## Handler: the local filters -/

theorem fomoFunc_some_of_send (d : DomoBot) (s : Session) (e : VoiceStateUpdate)
    (h : sends (d.voiceStateUpdate s e).2 ≠ []) :
    passesLocalFilters d.config e ∧ passesFetchFilters s ∧
    d.updatedRecently e.GuildID s.nowCheck = false ∧
    ∃ text, (fomoFunc d.index).2 = some text := by
  rcases voiceStateUpdate_cases d s e with ⟨-, hs⟩ | ⟨hl, hf, hr, -⟩
  · exact absurd hs h
  · refine ⟨hl, hf, hr, ?_⟩
    cases ht : (fomoFunc d.index).2 with
    | some text => exact ⟨text, rfl⟩
    | none =>
      exfalso
      apply h
      rw [voiceStateUpdate_of_filters d s e hl hf]
      simp only [hr, Bool.false_eq_true, if_false]
      rw [sends_append, sends_append, sends_updatedRecentlyTrace, sends_commit_none _ _ _ _ ht]
      rfl

/-- C11: for every event in which at least one of `Suppress`, `SelfMute`,
`SelfDeaf`, `Mute`, `Deaf` is true, `voiceStateUpdate` sends no message (it
performs no effect at all and returns the state it was given), whatever the
other fields of the event, the platform answers and the state are. -/
theorem voiceStateUpdate_muted_no_send (d : DomoBot) (s : Session) (e : VoiceStateUpdate)
    (h : e.Suppress = true ∨ e.SelfMute = true ∨ e.SelfDeaf = true ∨ e.Mute = true ∨
      e.Deaf = true) :
    sends (d.voiceStateUpdate s e).2 = [] ∧ (d.voiceStateUpdate s e).2 = [] ∧
    (d.voiceStateUpdate s e).1 = d := by
  have hnl : ¬ passesLocalFilters d.config e := by
    rintro ⟨-, -, h3, h4, h5, h6, h7, -⟩
    rcases h with h | h | h | h | h <;> simp_all
  rw [voiceStateUpdate_of_not_local d s e hnl]
  exact ⟨rfl, rfl, rfl⟩

/-- C11 (witness): the scenario join of a self-muted user sends nothing,
although every other filter would let it through. -/
theorem voiceStateUpdate_muted_no_send_witness :
    sends (scenarioBot.voiceStateUpdate (scenarioSession "CAT1" 0) mutedEvent).2 = [] :=
  (voiceStateUpdate_muted_no_send scenarioBot (scenarioSession "CAT1" 0) mutedEvent
    (Or.inr (Or.inl rfl))).1

/-- C12: for every event whose `ChannelID` is empty (a leave event),
`voiceStateUpdate` sends no message (it performs no effect at all and returns
the state it was given), whatever the other fields of the event, the platform
answers and the state are. -/
theorem voiceStateUpdate_leave_no_send (d : DomoBot) (s : Session) (e : VoiceStateUpdate)
    (h : e.ChannelID = "") :
    sends (d.voiceStateUpdate s e).2 = [] ∧ (d.voiceStateUpdate s e).2 = [] ∧
    (d.voiceStateUpdate s e).1 = d := by
  have hnl : ¬ passesLocalFilters d.config e := by
    rintro ⟨-, h2, -⟩
    exact h2 h
  rw [voiceStateUpdate_of_not_local d s e hnl]
  exact ⟨rfl, rfl, rfl⟩

/-- C12 (witness): a leave event of the registered guild `G1` sends nothing. -/
theorem voiceStateUpdate_leave_no_send_witness :
    sends (scenarioBot.voiceStateUpdate (scenarioSession "CAT1" 0) leaveEvent).2 = [] :=
  (voiceStateUpdate_leave_no_send scenarioBot (scenarioSession "CAT1" 0) leaveEvent rfl).1

/-- C13: for every event that carries a `BeforeUpdate` snapshot whose
`GuildID` equals the event's `GuildID`, `voiceStateUpdate` sends no message
and returns the state it was given; and for every event that leads to a send,
the same event without its `BeforeUpdate` snapshot is handled in exactly the
same way (same new state, same effects), so it leads to the same send:
removing the snapshot never turns a send into a discard. -/
theorem voiceStateUpdate_same_guild_switch (d : DomoBot) (s : Session) (e : VoiceStateUpdate) :
    (∀ before, e.BeforeUpdate = some before → before.GuildID = e.GuildID →
      sends (d.voiceStateUpdate s e).2 = [] ∧ (d.voiceStateUpdate s e).2 = [] ∧
      (d.voiceStateUpdate s e).1 = d) ∧
    (sends (d.voiceStateUpdate s e).2 ≠ [] →
      d.voiceStateUpdate s { e with BeforeUpdate := none } = d.voiceStateUpdate s e ∧
      sends (d.voiceStateUpdate s { e with BeforeUpdate := none }).2 ≠ []) := by
  refine ⟨?_, ?_⟩
  · intro before hb hg
    have hnl : ¬ passesLocalFilters d.config e := by
      rintro ⟨-, -, -, -, -, -, -, h8⟩
      exact h8 before hb hg
    rw [voiceStateUpdate_of_not_local d s e hnl]
    exact ⟨rfl, rfl, rfl⟩
  · intro hne
    obtain ⟨hl, hf, -, -⟩ := fomoFunc_some_of_send d s e hne
    have hl1 : passesLocalFilters d.config { e with BeforeUpdate := none } := by
      obtain ⟨h1, h2, h3, h4, h5, h6, h7, -⟩ := hl
      exact ⟨h1, h2, h3, h4, h5, h6, h7, fun _ hb => nomatch hb⟩
    have heq : d.voiceStateUpdate s { e with BeforeUpdate := none } = d.voiceStateUpdate s e := by
      rw [voiceStateUpdate_of_filters d s e hl hf,
        voiceStateUpdate_of_filters d s { e with BeforeUpdate := none } hl1 hf]
    exact ⟨heq, by rw [heq]; exact hne⟩

/-- C13 (witness): a switch inside guild `G1` sends nothing; a join whose
snapshot comes from guild `G0` sends, and so does the same join without the
snapshot. -/
theorem voiceStateUpdate_same_guild_switch_witness :
    sends (scenarioBot.voiceStateUpdate (scenarioSession "CAT1" 0) switchEvent).2 = [] ∧
    sends (scenarioBot.voiceStateUpdate (scenarioSession "CAT1" 0) arrivalEvent).2 ≠ [] ∧
    sends (scenarioBot.voiceStateUpdate (scenarioSession "CAT1" 0)
      { arrivalEvent with BeforeUpdate := none }).2 ≠ [] :=
  ⟨((voiceStateUpdate_same_guild_switch scenarioBot (scenarioSession "CAT1" 0) switchEvent).1
      (plainVoiceState "G1" "V0") rfl rfl).1,
   by decide,
   ((voiceStateUpdate_same_guild_switch scenarioBot (scenarioSession "CAT1" 0) arrivalEvent).2
      (by decide)).2⟩

/-! ## Handler: the shape of the trace -/

theorem voiceStateUpdate_trace_cases (d : DomoBot) (s : Session) (e : VoiceStateUpdate) :
    (¬ passesLocalFilters d.config e ∧ d.voiceStateUpdate s e = (d, [])) ∨
    (passesLocalFilters d.config e ∧
      ((∃ err, s.channelJoined = Except.error err ∧
          d.voiceStateUpdate s e =
            (d, [Effect.channel e.ChannelID,
                 Effect.logPrintf ("error getting channel from update: " ++ err)])) ∨
       (∃ ch, s.channelJoined = Except.ok ch ∧ ch.Typ ≠ ChannelTypeGuildVoice ∧
          d.voiceStateUpdate s e = (d, [Effect.channel e.ChannelID])) ∨
       (∃ ch err, s.channelJoined = Except.ok ch ∧ ch.Typ = ChannelTypeGuildVoice ∧
          s.channelUpdate = Except.error err ∧
          d.voiceStateUpdate s e =
            (d, [Effect.channel e.ChannelID,
                 Effect.channel (d.config.domoUpdateChannelId e.GuildID),
                 Effect.logPrintf ("error getting domo update channel: " ++ err)])) ∨
       (∃ ch updateCh, s.channelJoined = Except.ok ch ∧ ch.Typ = ChannelTypeGuildVoice ∧
          s.channelUpdate = Except.ok updateCh ∧ updateCh.ParentID ≠ ch.ParentID ∧
          d.voiceStateUpdate s e =
            (d, [Effect.channel e.ChannelID,
                 Effect.channel (d.config.domoUpdateChannelId e.GuildID)])) ∨
       (passesFetchFilters s ∧ d.updatedRecently e.GuildID s.nowCheck = true ∧
          d.voiceStateUpdate s e =
            (d, [Effect.channel e.ChannelID,
                 Effect.channel (d.config.domoUpdateChannelId e.GuildID)] ++
                  d.updatedRecentlyTrace e.GuildID)) ∨
       (passesFetchFilters s ∧ d.updatedRecently e.GuildID s.nowCheck = false ∧
          d.voiceStateUpdate s e =
            ((d.commit s e.GuildID (d.config.domoUpdateChannelId e.GuildID)).1,
              [Effect.channel e.ChannelID,
               Effect.channel (d.config.domoUpdateChannelId e.GuildID)] ++
                d.updatedRecentlyTrace e.GuildID ++
                (d.commit s e.GuildID (d.config.domoUpdateChannelId e.GuildID)).2)))) := by
  by_cases hl : passesLocalFilters d.config e
  swap
  · exact Or.inl ⟨hl, voiceStateUpdate_of_not_local d s e hl⟩
  refine Or.inr ⟨hl, ?_⟩
  have hl0 := hl
  obtain ⟨h1, h2, h3, h4, h5, h6, h7, h8⟩ := hl
  have hsw := sameGuildSwitch_eq_false e h8
  cases hj : s.channelJoined with
  | error err =>
    refine Or.inl ⟨err, rfl, ?_⟩
    unfold DomoBot.voiceStateUpdate
    simp [h1, h2, h3, h4, h5, h6, h7, hsw, hj]
  | ok ch =>
    by_cases hty : ch.Typ = ChannelTypeGuildVoice
    swap
    · refine Or.inr (Or.inl ⟨ch, rfl, hty, ?_⟩)
      unfold DomoBot.voiceStateUpdate
      simp [h1, h2, h3, h4, h5, h6, h7, hsw, hj, hty]
    cases hu : s.channelUpdate with
    | error err =>
      refine Or.inr (Or.inr (Or.inl ⟨ch, err, rfl, hty, rfl, ?_⟩))
      unfold DomoBot.voiceStateUpdate
      simp [h1, h2, h3, h4, h5, h6, h7, hsw, hj, hty, hu]
    | ok updateCh =>
      by_cases hp : updateCh.ParentID = ch.ParentID
      swap
      · refine Or.inr (Or.inr (Or.inr (Or.inl ⟨ch, updateCh, rfl, hty, rfl, hp, ?_⟩)))
        unfold DomoBot.voiceStateUpdate
        simp [h1, h2, h3, h4, h5, h6, h7, hsw, hj, hty, hu, hp]
      have hf : passesFetchFilters s := ⟨ch, updateCh, hj, hty, hu, hp⟩
      have hform := voiceStateUpdate_of_filters d s e hl0 hf
      cases hr : d.updatedRecently e.GuildID s.nowCheck with
      | true =>
        refine Or.inr (Or.inr (Or.inr (Or.inr (Or.inl ⟨hf, rfl, ?_⟩))))
        rw [hform]
        simp only [hr, if_true]
      | false =>
        refine Or.inr (Or.inr (Or.inr (Or.inr (Or.inr ⟨hf, rfl, ?_⟩))))
        rw [hform]
        simp only [hr, Bool.false_eq_true, if_false]

theorem mapWrites_append (a b : List Effect) :
    mapWrites (a ++ b) = mapWrites a ++ mapWrites b := by
  induction a with
  | nil => rfl
  | cons x rest ih => cases x <;> simp [mapWrites, ih]

theorem fetches_append (a b : List Effect) : fetches (a ++ b) = fetches a ++ fetches b := by
  induction a with
  | nil => rfl
  | cons x rest ih => cases x <;> simp [fetches, ih]

theorem mapWrites_updatedRecentlyTrace (d : DomoBot) (g : String) :
    mapWrites (d.updatedRecentlyTrace g) = [] := by
  unfold DomoBot.updatedRecentlyTrace
  cases d.updateTimes g <;> rfl

theorem fetches_updatedRecentlyTrace (d : DomoBot) (g : String) :
    fetches (d.updatedRecentlyTrace g) = [] := by
  unfold DomoBot.updatedRecentlyTrace
  cases d.updateTimes g <;> rfl

theorem mapWrites_commit (d : DomoBot) (s : Session) (g u : String) :
    mapWrites (d.commit s g u).2 = [(g, s.nowCommit)] := by
  unfold DomoBot.commit
  cases h : (fomoFunc d.index).2 with
  | none => simp only [h]; rfl
  | some text =>
    simp only [h]
    cases s.sendErr <;> rfl

theorem fetches_commit (d : DomoBot) (s : Session) (g u : String) :
    fetches (d.commit s g u).2 = [] := by
  unfold DomoBot.commit
  cases h : (fomoFunc d.index).2 with
  | none => simp only [h]; rfl
  | some text =>
    simp only [h]
    cases s.sendErr <;> rfl

theorem mapWrites_voiceStateUpdate (d : DomoBot) (s : Session) (e : VoiceStateUpdate) :
    mapWrites (d.voiceStateUpdate s e).2 = [] ∨
    mapWrites (d.voiceStateUpdate s e).2 = [(e.GuildID, s.nowCommit)] := by
  rcases voiceStateUpdate_trace_cases d s e with ⟨-, h⟩ | ⟨-, h⟩
  · rw [h]
    exact Or.inl rfl
  · rcases h with ⟨_, -, h⟩ | ⟨_, -, -, h⟩ | ⟨_, _, -, -, -, h⟩ | ⟨_, _, -, -, -, -, h⟩ |
      ⟨-, -, h⟩ | ⟨-, -, h⟩
    · rw [h]; exact Or.inl rfl
    · rw [h]; exact Or.inl rfl
    · rw [h]; exact Or.inl rfl
    · rw [h]; exact Or.inl rfl
    · rw [h]
      left
      show mapWrites (_ ++ _) = []
      rw [mapWrites_append, mapWrites_updatedRecentlyTrace]
      rfl
    · rw [h]
      right
      show mapWrites (_ ++ _ ++ _) = _
      rw [mapWrites_append, mapWrites_append, mapWrites_updatedRecentlyTrace, mapWrites_commit]
      rfl

/-! ## Handler: per-guild isolation -/

theorem voiceStateUpdate_writes (d : DomoBot) (s : Session) (e : VoiceStateUpdate) :
    (mapWrites (d.voiceStateUpdate s e).2 = [] ∨
      mapWrites (d.voiceStateUpdate s e).2 = [(e.GuildID, s.nowCommit)]) ∧
    (d.voiceStateUpdate s e).1.updateTimes =
      applyWrites d.updateTimes (mapWrites (d.voiceStateUpdate s e).2) := by
  refine ⟨mapWrites_voiceStateUpdate d s e, ?_⟩
  rcases voiceStateUpdate_trace_cases d s e with ⟨-, h⟩ | ⟨-, h⟩
  · rw [h]
    rfl
  · rcases h with ⟨_, -, h⟩ | ⟨_, -, -, h⟩ | ⟨_, _, -, -, -, h⟩ | ⟨_, _, -, -, -, -, h⟩ |
      ⟨-, -, h⟩ | ⟨-, -, h⟩
    · rw [h]; rfl
    · rw [h]; rfl
    · rw [h]; rfl
    · rw [h]; rfl
    · rw [h]
      show d.updateTimes = applyWrites d.updateTimes (mapWrites (_ ++ _))
      rw [mapWrites_append, mapWrites_updatedRecentlyTrace]
      rfl
    · rw [h]
      show (d.commit s e.GuildID _).1.updateTimes =
        applyWrites d.updateTimes (mapWrites (_ ++ _ ++ _))
      rw [mapWrites_append, mapWrites_append, mapWrites_updatedRecentlyTrace, mapWrites_commit,
        commit_fst]
      rfl

/-- C15: for every event, `voiceStateUpdate` writes the cooldown map at most
once, and only at the key `e.GuildID`; the map afterwards is the map before
with these writes applied, so the entry of every guild `h` other than
`e.GuildID` is unchanged and `updatedRecently h` has the same value, at every
clock value, before and after the event is handled. -/
theorem voiceStateUpdate_isolation (d : DomoBot) (s : Session) (e : VoiceStateUpdate) :
    (mapWrites (d.voiceStateUpdate s e).2).length ≤ 1 ∧
    (∀ w ∈ mapWrites (d.voiceStateUpdate s e).2, w.1 = e.GuildID) ∧
    (d.voiceStateUpdate s e).1.updateTimes =
      applyWrites d.updateTimes (mapWrites (d.voiceStateUpdate s e).2) ∧
    (∀ h, h ≠ e.GuildID →
      (d.voiceStateUpdate s e).1.updateTimes h = d.updateTimes h ∧
      ∀ now, (d.voiceStateUpdate s e).1.updatedRecently h now = d.updatedRecently h now) := by
  obtain ⟨hw, hst⟩ := voiceStateUpdate_writes d s e
  have hcfg := voiceStateUpdate_config d s e
  have hother : ∀ h, h ≠ e.GuildID →
      (d.voiceStateUpdate s e).1.updateTimes h = d.updateTimes h := by
    intro h hne
    rw [hst]
    rcases hw with hw | hw
    · rw [hw]
      rfl
    · rw [hw]
      exact mapSet_other _ _ _ _ hne
  refine ⟨?_, ?_, hst, ?_⟩
  · rcases hw with hw | hw <;> rw [hw] <;> simp
  · intro w hmem
    rcases hw with hw | hw
    · rw [hw] at hmem
      cases hmem
    · rw [hw] at hmem
      rw [List.mem_singleton.mp hmem]
  · intro h hne
    refine ⟨hother h hne, ?_⟩
    intro now
    unfold DomoBot.updatedRecently
    rw [hother h hne, hcfg]

/-- C15 (witness): a bot holding entries for `G1` and `G2` handles a join of
`G1` 61 seconds after the last notification: the entry of `G2` and the value
of `updatedRecently "G2"` at 6 seconds are as before. -/
theorem voiceStateUpdate_isolation_witness :
    "G2" ≠ scenarioEvent.GuildID ∧
    (twoGuildBot.voiceStateUpdate (scenarioSession "CAT1" (61 * Second)) scenarioEvent).1.updateTimes
      "G2" = twoGuildBot.updateTimes "G2" ∧
    (twoGuildBot.voiceStateUpdate (scenarioSession "CAT1" (61 * Second))
      scenarioEvent).1.updatedRecently "G2" (6 * Second) =
      twoGuildBot.updatedRecently "G2" (6 * Second) :=
  ⟨by decide,
   ((voiceStateUpdate_isolation twoGuildBot (scenarioSession "CAT1" (61 * Second))
      scenarioEvent).2.2.2 "G2" (by decide)).1,
   ((voiceStateUpdate_isolation twoGuildBot (scenarioSession "CAT1" (61 * Second))
      scenarioEvent).2.2.2 "G2" (by decide)).2 (6 * Second)⟩

/-! ## Handler: filter order -/

theorem fetches_voiceStateUpdate (d : DomoBot) (s : Session) (e : VoiceStateUpdate) :
    (¬ passesLocalFilters d.config e ∧ (d.voiceStateUpdate s e).2 = []) ∨
    (passesLocalFilters d.config e ∧ ¬ passesFetchFilters s ∧
      (∀ g, Effect.mapRead g ∉ (d.voiceStateUpdate s e).2) ∧
      (((∃ err, s.channelJoined = Except.error err) ∨
          (∃ ch, s.channelJoined = Except.ok ch ∧ ch.Typ ≠ ChannelTypeGuildVoice)) ∧
        fetches (d.voiceStateUpdate s e).2 = [e.ChannelID] ∨
       (∃ ch, s.channelJoined = Except.ok ch ∧ ch.Typ = ChannelTypeGuildVoice) ∧
        ∃ rest, (d.voiceStateUpdate s e).2 =
          Effect.channel e.ChannelID ::
            Effect.channel (d.config.domoUpdateChannelId e.GuildID) :: rest ∧
          fetches rest = [])) ∨
    (passesLocalFilters d.config e ∧ passesFetchFilters s ∧
      ∃ rest, (d.voiceStateUpdate s e).2 =
        Effect.channel e.ChannelID ::
          Effect.channel (d.config.domoUpdateChannelId e.GuildID) ::
          Effect.mapRead e.GuildID :: rest ∧
        fetches rest = []) := by
  rcases voiceStateUpdate_trace_cases d s e with ⟨hl, h⟩ | ⟨hl, h⟩
  · exact Or.inl ⟨hl, by rw [h]⟩
  · rcases h with ⟨err, hj, h⟩ | ⟨ch, hj, hty, h⟩ | ⟨ch, err, hj, hty, hu, h⟩ |
      ⟨ch, updateCh, hj, hty, hu, hp, h⟩ | ⟨hf, -, h⟩ | ⟨hf, -, h⟩
    · refine Or.inr (Or.inl ⟨hl, ?_, ?_, Or.inl ⟨Or.inl ⟨err, hj⟩, by rw [h]; rfl⟩⟩)
      · rintro ⟨ch, updateCh, hj1, -⟩
        rw [hj] at hj1
        cases hj1
      · intro g
        rw [h]
        simp
    · refine Or.inr (Or.inl ⟨hl, ?_, ?_, Or.inl ⟨Or.inr ⟨ch, hj, hty⟩, by rw [h]; rfl⟩⟩)
      · rintro ⟨ch1, updateCh, hj1, hty1, -⟩
        rw [hj] at hj1
        cases hj1
        exact hty hty1
      · intro g
        rw [h]
        simp
    · refine Or.inr (Or.inl ⟨hl, ?_, ?_, Or.inr ⟨⟨ch, hj, hty⟩, ?_⟩⟩)
      · rintro ⟨ch1, updateCh, -, -, hu1, -⟩
        rw [hu] at hu1
        cases hu1
      · intro g
        rw [h]
        simp
      · rw [h]
        exact ⟨_, rfl, rfl⟩
    · refine Or.inr (Or.inl ⟨hl, ?_, ?_, Or.inr ⟨⟨ch, hj, hty⟩, ?_⟩⟩)
      · rintro ⟨ch1, updateCh1, hj1, -, hu1, hp1⟩
        rw [hj] at hj1
        rw [hu] at hu1
        cases hj1
        cases hu1
        exact hp hp1
      · intro g
        rw [h]
        simp
      · rw [h]
        exact ⟨_, rfl, rfl⟩
    · refine Or.inr (Or.inr ⟨hl, hf, ?_⟩)
      rw [h]
      unfold DomoBot.updatedRecentlyTrace
      cases d.updateTimes e.GuildID with
      | none => exact ⟨_, rfl, rfl⟩
      | some t => exact ⟨_, rfl, rfl⟩
    · refine Or.inr (Or.inr ⟨hl, hf, ?_⟩)
      rw [h]
      have hc := fetches_commit d s e.GuildID (d.config.domoUpdateChannelId e.GuildID)
      unfold DomoBot.updatedRecentlyTrace
      cases d.updateTimes e.GuildID with
      | none => exact ⟨_, rfl, hc⟩
      | some t => exact ⟨_, rfl, hc⟩

/-- C16: for every event rejected by one of the first four filters
(unregistered guild, empty `ChannelID`, a mute or deafen flag, `BeforeUpdate`
of the same guild) `voiceStateUpdate` performs no channel fetch (no effect at
all); for every event whose joined channel fetch fails or returns a non-voice
channel there is at most the one fetch of `e.ChannelID` (exactly that one
when the first four filters are passed) and no fetch of the update channel;
whenever two fetches happen, the trace starts with the fetch of `e.ChannelID`
followed by the fetch of the update channel and contains no other fetch; and
whenever the rate-limit check (the lookup in `updateTimes`) happens, it comes
right after these two fetches. -/
theorem voiceStateUpdate_filter_order (d : DomoBot) (s : Session) (e : VoiceStateUpdate) :
    ((d.config.domoUpdateChannelId e.GuildID = "" ∨ e.ChannelID = "" ∨
        (e.Suppress = true ∨ e.SelfMute = true ∨ e.SelfDeaf = true ∨ e.Mute = true ∨
          e.Deaf = true) ∨
        (∃ before, e.BeforeUpdate = some before ∧ before.GuildID = e.GuildID)) →
      fetches (d.voiceStateUpdate s e).2 = [] ∧ (d.voiceStateUpdate s e).2 = []) ∧
    (((∃ err, s.channelJoined = Except.error err) ∨
        (∃ ch, s.channelJoined = Except.ok ch ∧ ch.Typ ≠ ChannelTypeGuildVoice)) →
      (fetches (d.voiceStateUpdate s e).2 = [] ∨
        fetches (d.voiceStateUpdate s e).2 = [e.ChannelID]) ∧
      (passesLocalFilters d.config e → fetches (d.voiceStateUpdate s e).2 = [e.ChannelID])) ∧
    (2 ≤ (fetches (d.voiceStateUpdate s e).2).length →
      fetches (d.voiceStateUpdate s e).2 =
        [e.ChannelID, d.config.domoUpdateChannelId e.GuildID] ∧
      ∃ rest, (d.voiceStateUpdate s e).2 =
        Effect.channel e.ChannelID ::
          Effect.channel (d.config.domoUpdateChannelId e.GuildID) :: rest ∧
        fetches rest = []) ∧
    (∀ g, Effect.mapRead g ∈ (d.voiceStateUpdate s e).2 →
      ∃ rest, (d.voiceStateUpdate s e).2 =
        Effect.channel e.ChannelID ::
          Effect.channel (d.config.domoUpdateChannelId e.GuildID) ::
          Effect.mapRead e.GuildID :: rest ∧
        fetches rest = []) := by
  have hcases := fetches_voiceStateUpdate d s e
  refine ⟨?_, ?_, ?_, ?_⟩
  · intro hrej
    have hnl : ¬ passesLocalFilters d.config e := by
      rintro ⟨h1, h2, h3, h4, h5, h6, h7, h8⟩
      rcases hrej with h | h | h | ⟨before, hb, hg⟩
      · exact h1 h
      · exact h2 h
      · rcases h with h | h | h | h | h <;> simp_all
      · exact h8 before hb hg
    rw [voiceStateUpdate_of_not_local d s e hnl]
    exact ⟨rfl, rfl⟩
  · intro hbad
    have hnf : ¬ passesFetchFilters s := by
      rintro ⟨ch, updateCh, hj, hty, -⟩
      rcases hbad with ⟨err, hj1⟩ | ⟨ch1, hj1, hty1⟩
      · rw [hj] at hj1
        cases hj1
      · rw [hj] at hj1
        cases hj1
        exact hty1 hty
    have hnv : ¬ ∃ ch, s.channelJoined = Except.ok ch ∧ ch.Typ = ChannelTypeGuildVoice := by
      rintro ⟨ch, hj, hty⟩
      rcases hbad with ⟨err, hj1⟩ | ⟨ch1, hj1, hty1⟩
      · rw [hj] at hj1
        cases hj1
      · rw [hj] at hj1
        cases hj1
        exact hty1 hty
    rcases hcases with ⟨hl, h⟩ | ⟨hl, -, -, ⟨-, h⟩ | ⟨hv, -⟩⟩ | ⟨-, hf, -⟩
    · rw [h]
      exact ⟨Or.inl rfl, fun hl1 => absurd hl1 hl⟩
    · exact ⟨Or.inr h, fun _ => h⟩
    · exact absurd hv hnv
    · exact absurd hf hnf
  · intro hlen
    rcases hcases with ⟨-, h⟩ | ⟨-, -, -, ⟨-, h⟩ | ⟨-, rest, h, hrest⟩⟩ | ⟨-, -, rest, h, hrest⟩
    · rw [h] at hlen
      simp [fetches] at hlen
    · rw [h] at hlen
      simp at hlen
    · rw [h]
      exact ⟨by simp [fetches, hrest], rest, rfl, hrest⟩
    · rw [h]
      exact ⟨by simp [fetches, hrest], _, rfl, by simp [fetches, hrest]⟩
  · intro g hmem
    rcases hcases with ⟨-, h⟩ | ⟨-, -, hno, -⟩ | ⟨-, -, rest, h, hrest⟩
    · rw [h] at hmem
      cases hmem
    · exact absurd hmem (hno g)
    · exact ⟨rest, h, hrest⟩

/-- C16 (witness): a leave event causes no fetch; when the fetch of the joined
channel fails, or returns a text channel, `V1` is the only channel fetched;
and the scenario join fetches `V1`, then `C1`, then checks the rate limit. -/
theorem voiceStateUpdate_filter_order_witness :
    fetches (scenarioBot.voiceStateUpdate (scenarioSession "CAT1" 0) leaveEvent).2 = [] ∧
    fetches (scenarioBot.voiceStateUpdate failingSession scenarioEvent).2 = ["V1"] ∧
    fetches (scenarioBot.voiceStateUpdate textChannelSession scenarioEvent).2 = ["V1"] ∧
    fetches (scenarioBot.voiceStateUpdate (scenarioSession "CAT1" 0) scenarioEvent).2 =
      ["V1", "C1"] ∧
    ∃ rest, (scenarioBot.voiceStateUpdate (scenarioSession "CAT1" 0) scenarioEvent).2 =
      Effect.channel "V1" :: Effect.channel "C1" :: Effect.mapRead "G1" :: rest ∧
      fetches rest = [] :=
  have hlocal : passesLocalFilters scenarioBot.config scenarioEvent :=
    ⟨by decide, by decide, rfl, rfl, rfl, rfl, rfl, fun _ h => nomatch h⟩
  ⟨((voiceStateUpdate_filter_order scenarioBot (scenarioSession "CAT1" 0) leaveEvent).1
      (Or.inr (Or.inl rfl))).1,
   ((voiceStateUpdate_filter_order scenarioBot failingSession scenarioEvent).2.1
      (Or.inl ⟨"HTTP 500", rfl⟩)).2 hlocal,
   ((voiceStateUpdate_filter_order scenarioBot textChannelSession scenarioEvent).2.1
      (Or.inr ⟨_, rfl, by decide⟩)).2 hlocal,
   ((voiceStateUpdate_filter_order scenarioBot (scenarioSession "CAT1" 0) scenarioEvent).2.2.1
      (by decide)).1,
   (voiceStateUpdate_filter_order scenarioBot (scenarioSession "CAT1" 0) scenarioEvent).2.2.2
      "G1" (by decide)⟩

/-! ## Sequences of events: the key space of the cooldown map -/

theorem run_cons_state (d : DomoBot) (s : Session) (e : VoiceStateUpdate)
    (rest : List (Session × VoiceStateUpdate)) :
    (run d ((s, e) :: rest)).1 =
      if Effect.panic ∈ (d.voiceStateUpdate s e).2 then (d.voiceStateUpdate s e).1
      else (run (d.voiceStateUpdate s e).1 rest).1 := by
  simp only [run]
  split_ifs <;> rfl

theorem voiceStateUpdate_keys (d : DomoBot) (s : Session) (e : VoiceStateUpdate)
    (hinv : ∀ g t, d.updateTimes g = some t → d.config.domoUpdateChannelId g ≠ "") :
    ∀ g t, (d.voiceStateUpdate s e).1.updateTimes g = some t →
      (d.voiceStateUpdate s e).1.config.domoUpdateChannelId g ≠ "" := by
  intro g t ht
  rw [voiceStateUpdate_config]
  rcases voiceStateUpdate_cases d s e with ⟨h, -⟩ | ⟨hl, -, -, h⟩
  · rw [h] at ht
    exact hinv g t ht
  · rw [h] at ht
    by_cases hg : g = e.GuildID
    · rw [hg]
      exact hl.1
    · have ht1 : mapSet d.updateTimes e.GuildID s.nowCommit g = some t := ht
      rw [mapSet_other _ _ _ _ hg] at ht1
      exact hinv g t ht1

theorem run_keys (steps : List (Session × VoiceStateUpdate)) :
    ∀ d : DomoBot, (∀ g t, d.updateTimes g = some t → d.config.domoUpdateChannelId g ≠ "") →
      (run d steps).1.config = d.config ∧
      ∀ g t, (run d steps).1.updateTimes g = some t →
        d.config.domoUpdateChannelId g ≠ "" := by
  induction steps with
  | nil =>
    intro d hinv
    exact ⟨rfl, hinv⟩
  | cons x rest ih =>
    obtain ⟨s, e⟩ := x
    intro d hinv
    have hcfg := voiceStateUpdate_config d s e
    have hstep := voiceStateUpdate_keys d s e hinv
    rw [run_cons_state]
    by_cases hp : Effect.panic ∈ (d.voiceStateUpdate s e).2
    · simp only [hp, if_true]
      rw [hcfg] at hstep
      exact ⟨hcfg, hstep⟩
    · simp only [hp, if_false]
      obtain ⟨ih1, ih2⟩ := ih (d.voiceStateUpdate s e).1 hstep
      rw [hcfg] at ih1 ih2
      exact ⟨ih1, ih2⟩

theorem listed_of_domoUpdateChannelId_ne (c : DomoBotConfig) (g : String)
    (h : c.domoUpdateChannelId g ≠ "") : ∃ sv ∈ c.Servers, sv.GuildId = g := by
  by_contra hnot
  apply h
  apply domoUpdateChannelIdLoop_of_not_listed
  intro sv hsv hg
  exact hnot ⟨sv, hsv, hg⟩

/-- C14: in every state reached from `NewDomoBot` (empty `updateTimes`) by a
sequence of `voiceStateUpdate` calls, the configuration is the one given at
construction, every guild id that has an entry in `updateTimes` is the
`GuildId` of an entry of `config.Servers`, and a guild id that no entry of
`config.Servers` lists has no entry in the cooldown map. -/
theorem run_keys_registered (config : DomoBotConfig) (start : Int)
    (steps : List (Session × VoiceStateUpdate)) :
    (run (NewDomoBot config start) steps).1.config = config ∧
    (∀ g t, (run (NewDomoBot config start) steps).1.updateTimes g = some t →
      ∃ sv ∈ config.Servers, sv.GuildId = g) ∧
    (∀ g, (∀ sv ∈ config.Servers, sv.GuildId ≠ g) →
      (run (NewDomoBot config start) steps).1.updateTimes g = none) := by
  have hinit : ∀ g t, (NewDomoBot config start).updateTimes g = some t →
      (NewDomoBot config start).config.domoUpdateChannelId g ≠ "" := by
    intro g t ht
    simp [NewDomoBot] at ht
  obtain ⟨hcfg, hkeys⟩ := run_keys steps (NewDomoBot config start) hinit
  have hlisted : ∀ g t, (run (NewDomoBot config start) steps).1.updateTimes g = some t →
      ∃ sv ∈ config.Servers, sv.GuildId = g :=
    fun g t ht => listed_of_domoUpdateChannelId_ne config g (hkeys g t ht)
  refine ⟨hcfg, hlisted, ?_⟩
  intro g hnot
  cases hg : (run (NewDomoBot config start) steps).1.updateTimes g with
  | none => rfl
  | some t =>
    obtain ⟨sv, hsv, hsg⟩ := hlisted g t hg
    exact absurd hsg (hnot sv hsv)

/-- C14 (witness): after the four scenario joins the cooldown map holds an
entry (61 seconds) for `G1`, which the configuration lists, and none for the
unlisted guild `G2`. -/
theorem run_keys_registered_witness :
    (run (NewDomoBot scenarioConfig 4) scenarioSteps).1.updateTimes "G1" = some (61 * Second) ∧
    (∃ sv ∈ scenarioConfig.Servers, sv.GuildId = "G1") ∧
    (run (NewDomoBot scenarioConfig 4) scenarioSteps).1.updateTimes "G2" = none :=
  ⟨by decide,
   (run_keys_registered scenarioConfig 4 scenarioSteps).2.1 "G1" (61 * Second) (by decide),
   (run_keys_registered scenarioConfig 4 scenarioSteps).2.2 "G2" (by decide)⟩

/-! ## Message cycler: cursor invariant -/

theorem cursorAfter_succ (n : Nat) :
    ∀ i : Int, cursorAfter i (n + 1) = (fomoFunc (cursorAfter i n)).1 := by
  induction n with
  | zero =>
    intro i
    rfl
  | succ m ih =>
    intro i
    show cursorAfter (fomoFunc i).1 (m + 1) = (fomoFunc (cursorAfter (fomoFunc i).1 m)).1
    exact ih (fomoFunc i).1

theorem fomoFunc_in_pool (i : Int) (h0 : 0 ≤ i) (h1 : i < numMsgs) :
    wrap32 (i + 1) = i + 1 ∧ (fomoFunc i).1.toNat < msgs.length ∧
    (fomoFunc i).2 = msgs[(fomoFunc i).1.toNat]? := by
  rw [numMsgs_eq] at h1
  interval_cases i <;> decide

theorem draws_isSome (n : Nat) :
    ∀ i : Int, 0 ≤ i → i < numMsgs → ∀ r ∈ draws i n, r.isSome = true := by
  induction n with
  | zero =>
    intro i _ _ r hr
    cases hr
  | succ m ih =>
    intro i h0 h1 r hr
    obtain ⟨hn0, hn1, -, hsome⟩ := fomoFunc_cursor i h0 h1
    rcases List.mem_cons.mp hr with h | h
    · rw [h]
      exact hsome
    · exact ih (fomoFunc i).1 hn0 hn1 r h

/-- C17: for every initial cursor in `[0, poolSize)` and every number `n` of
earlier draws, the cursor before the next draw is in `[0, poolSize)`; the
draw computes `cursor + 1` without `int32` overflow and moves the cursor to
`(cursor + 1) mod poolSize`, which is again in `[0, poolSize)` and a valid
position of `msgs`; the draw returns the pool entry at that position, so it
does not fail, and none of any number of draws fails. -/
theorem fomoFunc_cursor_invariant (start : Int) (h0 : 0 ≤ start) (h1 : start < numMsgs)
    (n : Nat) :
    (0 ≤ cursorAfter start n ∧ cursorAfter start n < numMsgs) ∧
    wrap32 (cursorAfter start n + 1) = cursorAfter start n + 1 ∧
    cursorAfter start (n + 1) = (cursorAfter start n + 1) % numMsgs ∧
    (0 ≤ cursorAfter start (n + 1) ∧ cursorAfter start (n + 1) < numMsgs) ∧
    (cursorAfter start (n + 1)).toNat < msgs.length ∧
    (fomoFunc (cursorAfter start n)).2 = msgs[(cursorAfter start (n + 1)).toNat]? ∧
    (fomoFunc (cursorAfter start n)).2.isSome = true ∧
    (∀ r ∈ draws start n, r.isSome = true) := by
  obtain ⟨hc0, hc1⟩ := cursorAfter_in_pool n start h0 h1
  obtain ⟨hn0, hn1, hmod, hsome⟩ := fomoFunc_cursor (cursorAfter start n) hc0 hc1
  obtain ⟨hwrap, hlt, hget⟩ := fomoFunc_in_pool (cursorAfter start n) hc0 hc1
  rw [cursorAfter_succ]
  exact ⟨⟨hc0, hc1⟩, hwrap, hmod, ⟨hn0, hn1⟩, hlt, hget, hsome, draws_isSome n start h0 h1⟩

/-- C17 (witness): from the initial cursor 17, the first draw wraps the
cursor to 0 and does not fail. -/
theorem fomoFunc_cursor_invariant_witness :
    (0 : Int) ≤ 17 ∧ (17 : Int) < numMsgs ∧ cursorAfter 17 (0 + 1) = (cursorAfter 17 0 + 1) % numMsgs ∧
    (fomoFunc (cursorAfter 17 0)).2.isSome = true :=
  ⟨by decide, by decide,
   (fomoFunc_cursor_invariant 17 (by decide) (by decide) 0).2.2.1,
   (fomoFunc_cursor_invariant 17 (by decide) (by decide) 0).2.2.2.2.2.2.1⟩

/-! ## One draw per send attempt -/

theorem voiceStateUpdate_draws (d : DomoBot) (s : Session) (e : VoiceStateUpdate)
    (hcur : cursorInPool d) :
    (sends (d.voiceStateUpdate s e).2 = [] ∧ (d.voiceStateUpdate s e).2.count Effect.draw = 0 ∧
      (d.voiceStateUpdate s e).1 = d) ∨
    (∃ text, (fomoFunc d.index).2 = some text ∧
      sends (d.voiceStateUpdate s e).2 = [(d.config.domoUpdateChannelId e.GuildID, text)] ∧
      (d.voiceStateUpdate s e).2.count Effect.draw = 1 ∧
      (d.voiceStateUpdate s e).1.index = (fomoFunc d.index).1) := by
  rcases voiceStateUpdate_trace_cases d s e with ⟨-, h⟩ | ⟨hl, h⟩
  · rw [h]
    exact Or.inl ⟨rfl, rfl, rfl⟩
  · rcases h with ⟨_, -, h⟩ | ⟨_, -, -, h⟩ | ⟨_, _, -, -, -, h⟩ | ⟨_, _, -, -, -, -, h⟩ |
      ⟨-, -, h⟩ | ⟨hf, hr, -⟩
    · rw [h]
      exact Or.inl ⟨rfl, by simp [List.count_cons], rfl⟩
    · rw [h]
      exact Or.inl ⟨rfl, by simp [List.count_cons], rfl⟩
    · rw [h]
      exact Or.inl ⟨rfl, by simp [List.count_cons], rfl⟩
    · rw [h]
      exact Or.inl ⟨rfl, by simp [List.count_cons], rfl⟩
    · rw [h]
      refine Or.inl ⟨?_, ?_, rfl⟩
      · show sends (_ ++ _) = []
        rw [sends_append, sends_updatedRecentlyTrace]
        rfl
      · show List.count Effect.draw (_ ++ _) = 0
        rw [List.count_append, count_draw_updatedRecentlyTrace]
        simp [List.count_cons]
    · obtain ⟨text, ht⟩ := fomoFunc_some_of_cursor d hcur
      obtain ⟨h1, h2, h3⟩ := voiceStateUpdate_send_of_filters d s e hl hf hr text ht
      exact Or.inr ⟨text, ht, h1, h2, by rw [h3]⟩

theorem consecutiveDistinct_of_map_some {α : Type} :
    ∀ l : List α, consecutiveDistinct (l.map some) → consecutiveDistinct l
  | [], _ => trivial
  | [_], _ => trivial
  | a :: b :: rest, h => by
    obtain ⟨hab, hrest⟩ := h
    refine ⟨?_, consecutiveDistinct_of_map_some (b :: rest) hrest⟩
    intro heq
    exact hab (by rw [heq])

theorem draws_consecutiveDistinct (n : Nat) :
    ∀ c : Int, 0 ≤ c → c < numMsgs → consecutiveDistinct (draws c n) := by
  induction n with
  | zero =>
    intro c _ _
    trivial
  | succ m ih =>
    intro c h0 h1
    obtain ⟨hn0, hn1, -, -⟩ := fomoFunc_cursor c h0 h1
    have hrest := ih (fomoFunc c).1 hn0 hn1
    cases m with
    | zero => trivial
    | succ k =>
      refine ⟨?_, hrest⟩
      obtain ⟨a, b, hab, hne⟩ := draws_two c h0 h1
      have h2 : [(fomoFunc c).2, (fomoFunc (fomoFunc c).1).2] = [some a, some b] := hab
      simp only [List.cons.injEq, and_true] at h2
      rw [h2.1, h2.2]
      intro heq
      exact hne (Option.some.inj heq)

theorem sentTexts_run (steps : List (Session × VoiceStateUpdate)) :
    ∀ d : DomoBot, cursorInPool d →
      (∃ n, (sentTexts (run d steps).2).map some = draws d.index n) ∧
      ∀ st ∈ (run d steps).2, (sends st.2.2).length ≤ 1 := by
  induction steps with
  | nil =>
    intro d _
    exact ⟨⟨0, rfl⟩, fun st hst => nomatch hst⟩
  | cons x rest ih =>
    obtain ⟨s, e⟩ := x
    intro d hcur
    rw [run_cons_log]
    rcases voiceStateUpdate_draws d s e hcur with ⟨hs, -, hd⟩ | ⟨text, ht, hs, -, hidx⟩
    · by_cases hp : Effect.panic ∈ (d.voiceStateUpdate s e).2
      · simp only [hp, if_true, sentTexts, hs, List.map_nil, List.append_nil, List.mem_singleton]
        refine ⟨⟨0, rfl⟩, ?_⟩
        intro st hst
        rw [hst]
        simp [hs]
      · simp only [hp, if_false, sentTexts, hs, List.map_nil, List.nil_append, List.mem_cons]
        rw [hd]
        obtain ⟨ih1, ih2⟩ := ih d hcur
        refine ⟨ih1, ?_⟩
        intro st hst
        rcases hst with hst | hst
        · rw [hst]
          simp [hs]
        · exact ih2 st hst
    · have hcur1 : cursorInPool (d.voiceStateUpdate s e).1 := by
        unfold cursorInPool
        rw [hidx]
        exact ⟨(fomoFunc_cursor d.index hcur.1 hcur.2).1, (fomoFunc_cursor d.index hcur.1 hcur.2).2.1⟩
      by_cases hp : Effect.panic ∈ (d.voiceStateUpdate s e).2
      · simp only [hp, if_true, sentTexts, hs, List.map_cons, List.map_nil, List.append_nil,
          List.mem_singleton]
        refine ⟨⟨1, ?_⟩, ?_⟩
        · show [some text] = [(fomoFunc d.index).2]
          rw [ht]
        · intro st hst
          rw [hst]
          simp [hs]
      · simp only [hp, if_false, sentTexts, hs, List.map_cons, List.map_nil, List.mem_cons]
        obtain ⟨⟨n, hn⟩, ih2⟩ := ih (d.voiceStateUpdate s e).1 hcur1
        refine ⟨⟨n + 1, ?_⟩, ?_⟩
        · show some text :: (sentTexts (run (d.voiceStateUpdate s e).1 rest).2).map some =
            (fomoFunc d.index).2 :: draws (fomoFunc d.index).1 n
          rw [hn, ht, hidx]
        · intro st hst
          rcases hst with hst | hst
          · rw [hst]
            simp [hs]
          · exact ih2 st hst

/-- C18: from a state whose cursor is a pool position, for every event,
`voiceStateUpdate` calls the message cycler exactly once and moves the cursor
to `(cursor + 1) mod poolSize` if it attempts a send, and does not call it at
all and leaves the cursor where it is if it sends nothing; and along every
sequence of events, of whichever guilds, every step makes at most one send
attempt and no two consecutive send attempts carry the same text. -/
theorem one_draw_per_send (d : DomoBot) (hcur : cursorInPool d) :
    (∀ s e,
      (sends (d.voiceStateUpdate s e).2 ≠ [] →
        (d.voiceStateUpdate s e).2.count Effect.draw = 1 ∧
        (d.voiceStateUpdate s e).1.index = (fomoFunc d.index).1 ∧
        (d.voiceStateUpdate s e).1.index = (d.index + 1) % numMsgs) ∧
      (sends (d.voiceStateUpdate s e).2 = [] →
        (d.voiceStateUpdate s e).2.count Effect.draw = 0 ∧
        (d.voiceStateUpdate s e).1.index = d.index)) ∧
    (∀ steps,
      (∀ st ∈ (run d steps).2, (sends st.2.2).length ≤ 1) ∧
      consecutiveDistinct (sentTexts (run d steps).2)) := by
  refine ⟨?_, ?_⟩
  · intro s e
    rcases voiceStateUpdate_draws d s e hcur with ⟨hs, hc, hd⟩ | ⟨text, -, hs, hc, hidx⟩
    · refine ⟨fun hne => absurd hs hne, fun _ => ⟨hc, by rw [hd]⟩⟩
    · refine ⟨fun _ => ⟨hc, hidx, ?_⟩, fun hnil => ?_⟩
      · rw [hidx]
        exact (fomoFunc_cursor d.index hcur.1 hcur.2).2.2.1
      · rw [hs] at hnil
        cases hnil
  · intro steps
    obtain ⟨⟨n, hn⟩, hone⟩ := sentTexts_run steps d hcur
    refine ⟨hone, consecutiveDistinct_of_map_some _ ?_⟩
    rw [hn]
    exact draws_consecutiveDistinct n d.index hcur.1 hcur.2

/-- C18 (witness): along the four scenario joins the bot, started at cursor
4, makes two send attempts, with the pool entries at positions 5 and 6. -/
theorem one_draw_per_send_witness :
    cursorInPool scenarioBot ∧
    sentTexts (run scenarioBot scenarioSteps).2 =
      ["domo has no voice...but you do! And you could be using it in a voice channel. Rub it in domo's face why don't you.",
       "domo is legally obliged to notify you that someone is in the discord."] ∧
    consecutiveDistinct (sentTexts (run scenarioBot scenarioSteps).2) :=
  ⟨by decide, by decide, ((one_draw_per_send scenarioBot (by decide)).2 scenarioSteps).2⟩

end Domo
